import Mathlib

/-!
# cpld_sysfs.c : the CPLD attribute-node registry

A shallow embedding of
`platform/broadcom/sonic-platform-modules-micas/common/modules/s3ip_sysfs/sysfs_driver/cpld_sysfs.c`.

* The three file-scope globals `g_cpld`, `g_cpld_obj`, `g_cpld_drv` are fields of `State`.
* The kernel side that the file talks to (the set of live sysfs nodes, the number of
  outstanding `kzalloc` blocks, and the sequence of collaborator and driver calls) is carried
  in the same `State`, so that leaks and call order can be stated.
* A C function that may dereference a NULL pointer or index outside the child array returns
  `Option`; `none` stands for undefined behaviour.
* The outcome of each fallible collaborator call made during one `Register` call is given by a
  `Faults` plan (every node is created at most once per call, so keying the plan by the child
  index covers every possible failure pattern).
-/

namespace CpldSysfs

/-! ## errno values used by the file -/

def EPERM : Int := 1
def ENOENT : Int := 2
def ENOMEM : Int := 12
def EINVAL : Int := 22
def EBADRQC : Int := 56

/-- Constants of headers that are not part of the file: the value returned by the `check_p`
macro of `switch.h` when its pointer argument is NULL, and the kernel's `PAGE_SIZE`. -/
structure switch_h where
  check_p_err : Int
  PAGE_SIZE : Nat

/-! ## Data model -/

/-- A sysfs node: its name and the name of its parent (`none` for a node created with a NULL
parent). -/
structure kobject where
  name : String
  parent : Option String
deriving DecidableEq

/-- The `struct switch_obj` of `switch.h`: a node plus an integer index. -/
structure switch_obj where
  kobj : kobject
  index : Nat
deriving DecidableEq

/-- The `struct cpld_obj_s`: one child slot, a possibly-NULL pointer to a node. -/
structure cpld_obj_s where
  obj : Option switch_obj
deriving DecidableEq

/-- The `struct cpld_s`: the child count and the (possibly NULL) child array. -/
structure cpld_s where
  cpld_number : Nat
  cpld : Option (List cpld_obj_s)
deriving DecidableEq

/-- The `struct s3ip_sysfs_cpld_drivers_s` callback table; a NULL function pointer is `none`.
A getter receives `(index, buf, count)` and yields its return value and the text the buffer
holds afterwards; the setter receives `(index, value)`. -/
structure s3ip_sysfs_cpld_drivers_s where
  get_main_board_cpld_number : Option (Unit → Int)
  get_main_board_cpld_alias : Option (Nat → String → Nat → Int × String)
  get_main_board_cpld_type : Option (Nat → String → Nat → Int × String)
  get_main_board_cpld_firmware_version : Option (Nat → String → Nat → Int × String)
  get_main_board_cpld_board_version : Option (Nat → String → Nat → Int × String)
  get_main_board_cpld_test_reg : Option (Nat → String → Nat → Int × String)
  set_main_board_cpld_test_reg : Option (Nat → Nat → Int)

/-- The two attribute groups of the file. -/
inductive attribute_group where
  | cpld_root_attr_group
  | cpld_attr_group
deriving DecidableEq

/-- One call that leaves the file: a kernel collaborator or a driver callback. -/
inductive Event where
  | switch_kobject_create (name : String) (parent : Option String) (ok : Bool)
  | switch_kobject_delete (k : kobject)
  | sysfs_create_group (k : kobject) (g : attribute_group) (ret : Int)
  | sysfs_remove_group (k : kobject) (g : attribute_group)
  | kzalloc (n : Nat) (ok : Bool)
  | kfree
  | filp_open (ok : Bool)
  | kernel_read (ret : Int)
  | filp_close
  | get_main_board_cpld_number
  | get_main_board_cpld_alias (index size : Nat)
  | get_main_board_cpld_type (index size : Nat)
  | get_main_board_cpld_firmware_version (index size : Nat)
  | get_main_board_cpld_board_version (index size : Nat)
  | get_main_board_cpld_test_reg (index size : Nat)
  | set_main_board_cpld_test_reg (index value : Nat)
deriving DecidableEq

/-- The globals of the file together with the kernel-side bookkeeping. -/
structure State where
  g_cpld : cpld_s
  g_cpld_obj : Option switch_obj
  g_cpld_drv : Option s3ip_sysfs_cpld_drivers_s
  nodes : List kobject
  allocated : Nat
  trace : List Event

/-- The state at module load: zeroed globals, no node, nothing allocated, nothing called. -/
def State.init : State :=
  { g_cpld := { cpld_number := 0, cpld := none }
    g_cpld_obj := none
    g_cpld_drv := none
    nodes := []
    allocated := 0
    trace := [] }

/-- Outcomes of the fallible collaborator calls of one `Register` call. `sub_kobject_ok k` and
`sub_group_ret k` are the outcomes for child `k`; a group return value of `0` is success. -/
structure Faults where
  root_kobject_ok : Bool
  root_group_ret : Int
  kzalloc_ok : Bool
  sub_kobject_ok : Nat → Bool
  sub_group_ret : Nat → Int

/-- The plan in which every collaborator call succeeds. -/
def Faults.all_ok : Faults :=
  { root_kobject_ok := true
    root_group_ret := 0
    kzalloc_ok := true
    sub_kobject_ok := fun _ => true
    sub_group_ret := fun _ => 0 }

/-! ## Collaborators (`switch.c`, sysfs, slab) -/

/-- Modelled from the spec: `switch_kobject_create` of `switch.c` (not part of the file), the
"create named node under parent" capability. On success a fresh zeroed `switch_obj` is added
to the live nodes and returned; on failure NULL is returned and no node is added. -/
def switch_kobject_create (ok : Bool) (name : String) (parent : Option kobject) (s : State) :
    Option switch_obj × State :=
  let pname := parent.map (fun p => p.name)
  if ok then
    let k : kobject := { name := name, parent := pname }
    (some { kobj := k, index := 0 },
      { s with nodes := k :: s.nodes
               trace := s.trace ++ [Event.switch_kobject_create name pname true] })
  else
    (none, { s with trace := s.trace ++ [Event.switch_kobject_create name pname false] })

/-- Modelled from the spec: `switch_kobject_delete` of `switch.c` (not part of the file), the
"delete node" capability. It receives the address of a node pointer; when the pointer is not
NULL the node is deleted and the pointer is set to NULL. The new pointer value is returned. -/
def switch_kobject_delete (obj : Option switch_obj) (s : State) : Option switch_obj × State :=
  match obj with
  | none => (none, s)
  | some o =>
    (none, { s with nodes := s.nodes.erase o.kobj
                    trace := s.trace ++ [Event.switch_kobject_delete o.kobj] })

/-- The kernel's `sysfs_create_group`: returns `ret` (0 on success). -/
def sysfs_create_group (ret : Int) (k : kobject) (g : attribute_group) (s : State) :
    Int × State :=
  (ret, { s with trace := s.trace ++ [Event.sysfs_create_group k g ret] })

/-- The kernel's `sysfs_remove_group`. -/
def sysfs_remove_group (k : kobject) (g : attribute_group) (s : State) : State :=
  { s with trace := s.trace ++ [Event.sysfs_remove_group k g] }

/-- The kernel's `kzalloc` for an array of `n` child slots: a zeroed array, or NULL. -/
def kzalloc (ok : Bool) (n : Nat) (s : State) : Option (List cpld_obj_s) × State :=
  if ok then
    (some (List.replicate n { obj := none }),
      { s with allocated := s.allocated + 1, trace := s.trace ++ [Event.kzalloc n true] })
  else
    (none, { s with trace := s.trace ++ [Event.kzalloc n false] })

/-- The kernel's `kfree` of a non-NULL block. -/
def kfree (s : State) : State :=
  { s with allocated := s.allocated - 1, trace := s.trace ++ [Event.kfree] }

/-- The text `snprintf(name, size, "cpld%u", index)` leaves in `name`: at most `size - 1`
characters of the formatted text. -/
def snprintf_cpld_u (size : Nat) (index : Nat) : String :=
  String.mk ((("cpld" ++ toString index).data).take (size - 1))

/-! ## Child nodes -/

/-- Writes `p` into `g_cpld.cpld[i]`. -/
def State.set_slot (s : State) (arr : List cpld_obj_s) (i : Nat) (p : Option switch_obj) :
    State :=
  { s with g_cpld := { s.g_cpld with cpld := some (arr.set i { obj := p }) } }

/-- The function `cpld_sub_single_remove_kobj_and_attrs`. -/
def cpld_sub_single_remove_kobj_and_attrs (index : Nat) (s : State) : Option (Int × State) :=
  match s.g_cpld.cpld with
  | none => none
  | some arr =>
    if index = 0 then none
    else
      match arr[index - 1]? with
      | none => none
      | some curr_cpld =>
        match curr_cpld.obj with
        | some o =>
          let s1 := sysfs_remove_group o.kobj attribute_group.cpld_attr_group s
          let r := switch_kobject_delete (some o) s1
          some (0, r.2.set_slot arr (index - 1) r.1)
        | none => some (0, s)

/-- The function `cpld_sub_single_create_kobj_and_attrs`. -/
def cpld_sub_single_create_kobj_and_attrs (F : Faults) (parent : kobject) (index : Nat)
    (s : State) : Option (Int × State) :=
  match s.g_cpld.cpld with
  | none => none
  | some arr =>
    if index = 0 then none
    else
      match arr[index - 1]? with
      | none => none
      | some _ =>
        let name := snprintf_cpld_u 8 index
        let c := switch_kobject_create (F.sub_kobject_ok index) name (some parent) s
        match c.1 with
        | none => some (-EBADRQC, c.2.set_slot arr (index - 1) none)
        | some o =>
          let o1 : switch_obj := { o with index := index }
          let g := sysfs_create_group (F.sub_group_ret index) o1.kobj
            attribute_group.cpld_attr_group c.2
          if g.1 ≠ 0 then
            let d := switch_kobject_delete (some o1) g.2
            some (-EBADRQC, d.2.set_slot arr (index - 1) d.1)
          else
            some (0, g.2.set_slot arr (index - 1) (some o1))

/-- The creation loop of `cpld_sub_create_kobj_and_attrs`,
`for (cpld_index = 1; cpld_index <= cpld_num; cpld_index++)`, from the current `cpld_index`.
The result is `none` in the first component when the loop ran to its end and `some k` when it
left through `goto error` with `cpld_index = k`. `fuel` bounds the number of iterations. -/
def create_loop (F : Faults) (parent : kobject) (cpld_num : Nat) :
    Nat → Nat → State → Option (Option Nat × State)
  | 0, _, _ => none
  | fuel + 1, cpld_index, s =>
    if cpld_index ≤ cpld_num then
      match cpld_sub_single_create_kobj_and_attrs F parent cpld_index s with
      | none => none
      | some (ret, s1) =>
        if ret ≠ 0 then some (some cpld_index, s1)
        else create_loop F parent cpld_num fuel (cpld_index + 1) s1
    else some (none, s)

/-- The removal loop `for (i = start; i > 0; i--) cpld_sub_single_remove_kobj_and_attrs(i)`
shared by the rollback of `cpld_sub_create_kobj_and_attrs` and by `cpld_sub_remove`. -/
def remove_loop : Nat → State → Option State
  | 0, s => some s
  | i + 1, s =>
    match cpld_sub_single_remove_kobj_and_attrs (i + 1) s with
    | none => none
    | some (_, s1) => remove_loop i s1

/-- The function `cpld_sub_create_kobj_and_attrs`. -/
def cpld_sub_create_kobj_and_attrs (F : Faults) (parent : kobject) (cpld_num : Nat)
    (s : State) : Option (Int × State) :=
  let a := kzalloc F.kzalloc_ok cpld_num s
  let s1 : State := { a.2 with g_cpld := { a.2.g_cpld with cpld := a.1 } }
  match a.1 with
  | none => some (-ENOMEM, s1)
  | some _ =>
    match create_loop F parent cpld_num (cpld_num + 1) 1 s1 with
    | none => none
    | some (none, s2) => some (0, s2)
    | some (some cpld_index, s2) =>
      match remove_loop cpld_index s2 with
      | none => none
      | some s3 =>
        let s4 := kfree s3
        some (-EBADRQC, { s4 with g_cpld := { s4.g_cpld with cpld := none } })

/-- The function `cpld_sub_create`. -/
def cpld_sub_create (F : Faults) (s : State) : Option (Int × State) :=
  match s.g_cpld_obj with
  | none => none
  | some root => cpld_sub_create_kobj_and_attrs F root.kobj s.g_cpld.cpld_number s

/-- The function `cpld_sub_remove`. -/
def cpld_sub_remove (s : State) : Option State :=
  match s.g_cpld.cpld with
  | some _ =>
    match remove_loop s.g_cpld.cpld_number s with
    | none => none
    | some s1 =>
      let s2 := kfree s1
      some { s2 with g_cpld := { cpld_number := 0, cpld := none } }
  | none => some { s with g_cpld := { s.g_cpld with cpld_number := 0 } }

/-! ## Root node -/

/-- The function `cpld_root_create`. -/
def cpld_root_create (F : Faults) (s : State) : Int × State :=
  let c := switch_kobject_create F.root_kobject_ok "cpld" none s
  let s1 : State := { c.2 with g_cpld_obj := c.1 }
  match c.1 with
  | none => (-ENOMEM, s1)
  | some root =>
    let g := sysfs_create_group F.root_group_ret root.kobj
      attribute_group.cpld_root_attr_group s1
    if g.1 ≠ 0 then
      let d := switch_kobject_delete (some root) g.2
      (-EBADRQC, { d.2 with g_cpld_obj := d.1 })
    else (0, g.2)

/-- The function `cpld_root_remove`. -/
def cpld_root_remove (s : State) : State :=
  match s.g_cpld_obj with
  | some root =>
    let s1 := sysfs_remove_group root.kobj attribute_group.cpld_root_attr_group s
    let d := switch_kobject_delete (some root) s1
    { d.2 with g_cpld_obj := d.1 }
  | none => s

/-! ## Registration entry points -/

/-- The function `s3ip_sysfs_cpld_drivers_register`. -/
def s3ip_sysfs_cpld_drivers_register (H : switch_h) (F : Faults)
    (drv : Option s3ip_sysfs_cpld_drivers_s) (s : State) : Option (Int × State) :=
  match s.g_cpld_drv with
  | some _ => some (-EPERM, s)
  | none =>
    match drv with
    | none => some (H.check_p_err, s)
    | some d =>
      match d.get_main_board_cpld_number with
      | none => some (H.check_p_err, s)
      | some get_number =>
        let s1 : State :=
          { s with g_cpld_drv := some d
                   trace := s.trace ++ [Event.get_main_board_cpld_number] }
        let cpld_num := get_number ()
        if cpld_num ≤ 0 then
          some (-EINVAL, { s1 with g_cpld_drv := none })
        else
          let s2 : State := { s1 with g_cpld := { cpld_number := cpld_num.toNat, cpld := none } }
          let r := cpld_root_create F s2
          if r.1 < 0 then
            some (r.1, { r.2 with g_cpld_drv := none })
          else
            match cpld_sub_create F r.2 with
            | none => none
            | some (ret, s3) =>
              if ret < 0 then
                let s4 := cpld_root_remove s3
                some (ret, { s4 with g_cpld_drv := none })
              else some (0, s3)

/-- The function `s3ip_sysfs_cpld_drivers_unregister`. -/
def s3ip_sysfs_cpld_drivers_unregister (s : State) : Option State :=
  match s.g_cpld_drv with
  | some _ =>
    match cpld_sub_remove s with
    | none => none
    | some s1 =>
      let s2 := cpld_root_remove s1
      some { s2 with g_cpld_drv := none }
  | none => some s

/-! ## Attribute shims -/

/-- The kernel's `snprintf(buf, size, ...)` for an already formatted `text`: the return value is
the length of `text`, the buffer receives at most `size - 1` characters of it. -/
def snprintf (size : Nat) (text : String) : Int × String :=
  (text.length, String.mk (text.data.take (size - 1)))

/-- The function `cpld_number_show`; the result is the return value and the buffer text. -/
def cpld_number_show (H : switch_h) (s : State) : (Int × String) × State :=
  (snprintf H.PAGE_SIZE (toString s.g_cpld.cpld_number ++ "\n"), s)

/-- The function `cpld_alias_show`. -/
def cpld_alias_show (H : switch_h) (obj : switch_obj) (buf : String) (s : State) :
    (Int × String) × State :=
  match s.g_cpld_drv with
  | none => ((H.check_p_err, buf), s)
  | some drv =>
    match drv.get_main_board_cpld_alias with
    | none => ((H.check_p_err, buf), s)
    | some get =>
      let cpld_index := obj.index
      (get cpld_index buf H.PAGE_SIZE,
        { s with trace := s.trace ++ [Event.get_main_board_cpld_alias cpld_index H.PAGE_SIZE] })

/-- The function `cpld_type_show`. -/
def cpld_type_show (H : switch_h) (obj : switch_obj) (buf : String) (s : State) :
    (Int × String) × State :=
  match s.g_cpld_drv with
  | none => ((H.check_p_err, buf), s)
  | some drv =>
    match drv.get_main_board_cpld_type with
    | none => ((H.check_p_err, buf), s)
    | some get =>
      let cpld_index := obj.index
      (get cpld_index buf H.PAGE_SIZE,
        { s with trace := s.trace ++ [Event.get_main_board_cpld_type cpld_index H.PAGE_SIZE] })

/-- The function `cpld_fw_version_show`. -/
def cpld_fw_version_show (H : switch_h) (obj : switch_obj) (buf : String) (s : State) :
    (Int × String) × State :=
  match s.g_cpld_drv with
  | none => ((H.check_p_err, buf), s)
  | some drv =>
    match drv.get_main_board_cpld_firmware_version with
    | none => ((H.check_p_err, buf), s)
    | some get =>
      let cpld_index := obj.index
      (get cpld_index buf H.PAGE_SIZE,
        { s with trace := s.trace ++
            [Event.get_main_board_cpld_firmware_version cpld_index H.PAGE_SIZE] })

/-- The function `cpld_board_version_show`. -/
def cpld_board_version_show (H : switch_h) (obj : switch_obj) (buf : String) (s : State) :
    (Int × String) × State :=
  match s.g_cpld_drv with
  | none => ((H.check_p_err, buf), s)
  | some drv =>
    match drv.get_main_board_cpld_board_version with
    | none => ((H.check_p_err, buf), s)
    | some get =>
      let cpld_index := obj.index
      (get cpld_index buf H.PAGE_SIZE,
        { s with trace := s.trace ++
            [Event.get_main_board_cpld_board_version cpld_index H.PAGE_SIZE] })

/-- The function `cpld_test_reg_show`. -/
def cpld_test_reg_show (H : switch_h) (obj : switch_obj) (buf : String) (s : State) :
    (Int × String) × State :=
  match s.g_cpld_drv with
  | none => ((H.check_p_err, buf), s)
  | some drv =>
    match drv.get_main_board_cpld_test_reg with
    | none => ((H.check_p_err, buf), s)
    | some get =>
      let cpld_index := obj.index
      (get cpld_index buf H.PAGE_SIZE,
        { s with trace := s.trace ++ [Event.get_main_board_cpld_test_reg cpld_index H.PAGE_SIZE] })

/-- The value of a hexadecimal digit, either case. -/
def hex_digit (c : Char) : Option Nat :=
  if '0' ≤ c ∧ c ≤ '9' then some (c.toNat - '0'.toNat)
  else if 'a' ≤ c ∧ c ≤ 'f' then some (c.toNat - 'a'.toNat + 10)
  else if 'A' ≤ c ∧ c ≤ 'F' then some (c.toNat - 'A'.toNat + 10)
  else none

/-- The number denoted by the longest run of hexadecimal digits at the start of the text,
continuing from the value `acc` of the digits already read. -/
def hex_run (acc : Nat) : List Char → Nat
  | [] => acc
  | c :: cs =>
    match hex_digit c with
    | some v => hex_run (acc * 16 + v) cs
    | none => acc

/-- Modelled from the spec: the kernel's `sscanf(buf, "0x%x", &value)` (not part of the
file). The text must start with `0x` followed by at least one hexadecimal digit; the result is
the unsigned 32-bit value of the digits. `none` means that nothing was stored in `value`. -/
def sscanf_0x_x (buf : List Char) : Option Nat :=
  match buf with
  | '0' :: 'x' :: c :: cs =>
    match hex_digit c with
    | some v => some (hex_run v cs % 2 ^ 32)
    | none => none
  | _ => none

/-- The function `cpld_test_reg_store`. `value0` is the indeterminate initial content of the
local variable `value`, which is what the setter receives when `sscanf` stores nothing. -/
def cpld_test_reg_store (H : switch_h) (obj : switch_obj) (buf : String) (count : Nat)
    (value0 : Nat) (s : State) : Int × State :=
  match s.g_cpld_drv with
  | none => (H.check_p_err, s)
  | some drv =>
    match drv.set_main_board_cpld_test_reg with
    | none => (H.check_p_err, s)
    | some set =>
      let cpld_index := obj.index
      let value := (sscanf_0x_x buf.data).getD value0
      let ret := set cpld_index value
      let s1 : State :=
        { s with trace := s.trace ++ [Event.set_main_board_cpld_test_reg cpld_index value] }
      if ret < 0 then (ret, s1) else ((count : Int), s1)

/-! ## Reboot cause -/

def REBOOT_CAUSE_NAME_LEN : Nat := 64

def REBOOT_CAUSE_NON_HARDWARE : Int := 0
def REBOOT_CAUSE_POWER_LOSS : Int := 1
def REBOOT_CAUSE_THERMAL_OVERLOAD_CPU : Int := 2
def REBOOT_CAUSE_THERMAL_OVERLOAD_ASIC : Int := 3
def REBOOT_CAUSE_THERMAL_OVERLOAD_OTHER : Int := 4
def REBOOT_CAUSE_INSUFFICIENT_FAN_SPEED : Int := 5
def REBOOT_CAUSE_WATCHDOG : Int := 6
def REBOOT_CAUSE_HARDWARE_OTHER : Int := 7
def REBOOT_CAUSE_CPU_COLD_RESET : Int := 8
def REBOOT_CAUSE_CPU_WARM_RESET : Int := 9
def REBOOT_CAUSE_BIOS_RESET : Int := 10
def REBOOT_CAUSE_PSU_SHUTDOWN : Int := 11
def REBOOT_CAUSE_BMC_SHUTDOWN : Int := 12
def REBOOT_CAUSE_RESET_BUTTON_SHUTDOWN : Int := 13
def REBOOT_CAUSE_RESET_BUTTON_COLD_SHUTDOWN : Int := 14

/-- The `struct reboot_cause_file_info_s`; the name array holds the text followed by NULs. -/
structure reboot_cause_file_info_s where
  reboot_cause_type : Int
  reboot_cause_name : String
deriving DecidableEq

/-- The table `reboot_cause_file_info_match`. -/
def reboot_cause_file_info_match : List reboot_cause_file_info_s :=
  [ { reboot_cause_type := REBOOT_CAUSE_POWER_LOSS, reboot_cause_name := "Power Loss" },
    { reboot_cause_type := REBOOT_CAUSE_THERMAL_OVERLOAD_ASIC,
      reboot_cause_name := "Watchdog reboot" },
    { reboot_cause_type := REBOOT_CAUSE_THERMAL_OVERLOAD_OTHER, reboot_cause_name := "BMC reboot" },
    { reboot_cause_type := REBOOT_CAUSE_BMC_SHUTDOWN, reboot_cause_name := "BMC powerdown" },
    { reboot_cause_type := REBOOT_CAUSE_THERMAL_OVERLOAD_ASIC,
      reboot_cause_name := "Thermal Overload: ASIC" },
    { reboot_cause_type := REBOOT_CAUSE_CPU_WARM_RESET, reboot_cause_name := "Warm reboot" } ]

/-- The NUL character. A character buffer is a list of characters, one per byte; a position
past the end of the list reads as NUL. -/
def NUL : Char := Char.ofNat 0

/-- The C library's `strlen`. -/
def strlen : List Char → Nat
  | [] => 0
  | c :: cs => if c = NUL then 0 else strlen cs + 1

/-- The C library's `strchr`: the offset of the first `ch` in the string, `none` for NULL. -/
def strchr (ch : Char) : List Char → Option Nat
  | [] => none
  | c :: cs =>
    if c = ch then some 0
    else if c = NUL then none
    else (strchr ch cs).map (fun i => i + 1)

/-- The C library's `strncmp`: `0` exactly when the two strings agree on their first `n`
characters or up to a common terminating NUL. -/
def strncmp (a b : List Char) : Nat → Int
  | 0 => 0
  | n + 1 =>
    let x := a.headD NUL
    let y := b.headD NUL
    if x ≠ y then (x.toNat : Int) - (y.toNat : Int)
    else if x = NUL then 0
    else strncmp a.tail b.tail n

/-- The content of the reboot-cause file as `cpld_file_read` finds it: `filp_open` fails, or
`kernel_read` fails with the negative value `-(err + 1)`, or the file holds `data`. -/
inductive file_state where
  | absent
  | unreadable (err : Nat)
  | content (data : List Char)
deriving DecidableEq

/-- The function `cpld_file_read` on the file found in state `file`: the return value, the
buffer afterwards and the kernel calls made. -/
def cpld_file_read (file : file_state) (buf : List Char) (size : Nat) :
    Int × List Char × List Event :=
  match file with
  | file_state.absent => (-ENOENT, buf, [Event.filp_open false])
  | file_state.unreadable err =>
    let buf1 := List.replicate size NUL ++ buf.drop size
    let ret : Int := -((err : Int) + 1)
    (ret, buf1, [Event.filp_open true, Event.kernel_read ret, Event.filp_close])
  | file_state.content data =>
    let buf1 := List.replicate size NUL ++ buf.drop size
    let rd := data.take (size - 1)
    let ret : Int := rd.length
    (ret, rd ++ buf1.drop rd.length,
      [Event.filp_open true, Event.kernel_read ret, Event.filp_close])

/-- The table scan of `cpld_reboot_cause_show`: the value of `reboot_cause_type` after the
`for` loop over the remaining entries. -/
def reboot_cause_scan (buf : List Char) : List reboot_cause_file_info_s → Int
  | [] => 0
  | e :: es =>
    if strncmp e.reboot_cause_name.data buf (strlen e.reboot_cause_name.data) = 0 then
      e.reboot_cause_type
    else reboot_cause_scan buf es

/-- The function `cpld_reboot_cause_show` up to its final `snprintf`: the value printed and the
kernel calls made. -/
def reboot_cause_value (file : file_state) : Int × List Event :=
  let reboot_cause_buf := List.replicate REBOOT_CAUSE_NAME_LEN NUL
  let r := cpld_file_read file reboot_cause_buf (REBOOT_CAUSE_NAME_LEN - 1)
  if r.1 < 0 then (0, r.2.2)
  else
    let buf1 :=
      match strchr ',' r.2.1 with
      | some point => r.2.1.set point NUL
      | none => r.2.1
    (reboot_cause_scan buf1 reboot_cause_file_info_match, r.2.2)

/-- The function `cpld_reboot_cause_show`. -/
def cpld_reboot_cause_show (H : switch_h) (file : file_state) (s : State) :
    (Int × String) × State :=
  let v := reboot_cause_value file
  (snprintf H.PAGE_SIZE (toString v.1 ++ "\n"), { s with trace := s.trace ++ v.2 })

/-! ## Sequences of calls -/

/-- The attributes of the root node, the array `cpld_dir_attrs`. -/
inductive root_attr where
  | number
  | reboot_cause
deriving DecidableEq

/-- The readable attributes of a child node, the array `cpld_attrs`. -/
inductive child_attr where
  | alias
  | type
  | firmware_version
  | board_version
  | reg_test
deriving DecidableEq

/-- The `show` function the array `cpld_dir_attrs` attaches to each root attribute. -/
def root_show (H : switch_h) (a : root_attr) (file : file_state) (s : State) :
    (Int × String) × State :=
  match a with
  | root_attr.number => cpld_number_show H s
  | root_attr.reboot_cause => cpld_reboot_cause_show H file s

/-- The `show` function the array `cpld_attrs` attaches to each child attribute. -/
def child_show (H : switch_h) (a : child_attr) (obj : switch_obj) (buf : String) (s : State) :
    (Int × String) × State :=
  match a with
  | child_attr.alias => cpld_alias_show H obj buf s
  | child_attr.type => cpld_type_show H obj buf s
  | child_attr.firmware_version => cpld_fw_version_show H obj buf s
  | child_attr.board_version => cpld_board_version_show H obj buf s
  | child_attr.reg_test => cpld_test_reg_show H obj buf s

/-- The capability function of the driver a child attribute reads through. -/
def child_getter (a : child_attr) (d : s3ip_sysfs_cpld_drivers_s) :
    Option (Nat → String → Nat → Int × String) :=
  match a with
  | child_attr.alias => d.get_main_board_cpld_alias
  | child_attr.type => d.get_main_board_cpld_type
  | child_attr.firmware_version => d.get_main_board_cpld_firmware_version
  | child_attr.board_version => d.get_main_board_cpld_board_version
  | child_attr.reg_test => d.get_main_board_cpld_test_reg

/-- The trace entry of a call of the capability function of a child attribute. -/
def child_getter_event (a : child_attr) (index size : Nat) : Event :=
  match a with
  | child_attr.alias => Event.get_main_board_cpld_alias index size
  | child_attr.type => Event.get_main_board_cpld_type index size
  | child_attr.firmware_version => Event.get_main_board_cpld_firmware_version index size
  | child_attr.board_version => Event.get_main_board_cpld_board_version index size
  | child_attr.reg_test => Event.get_main_board_cpld_test_reg index size

/-- Whether a trace entry is a call of a driver callback. -/
def Event.is_driver_call : Event → Bool
  | Event.get_main_board_cpld_number => true
  | Event.get_main_board_cpld_alias _ _ => true
  | Event.get_main_board_cpld_type _ _ => true
  | Event.get_main_board_cpld_firmware_version _ _ => true
  | Event.get_main_board_cpld_board_version _ _ => true
  | Event.get_main_board_cpld_test_reg _ _ => true
  | Event.set_main_board_cpld_test_reg _ _ => true
  | _ => false

/-- One call into the file from outside. -/
inductive Op where
  | register (F : Faults) (drv : Option s3ip_sysfs_cpld_drivers_s)
  | unregister
  | root_show (a : root_attr) (file : file_state)
  | child_show (a : child_attr) (obj : switch_obj) (buf : String)
  | test_reg_store (obj : switch_obj) (buf : String) (count : Nat) (value0 : Nat)

/-- The state after one call; `none` if the call runs into undefined behaviour. -/
def step (H : switch_h) (op : Op) (s : State) : Option State :=
  match op with
  | Op.register F drv => (s3ip_sysfs_cpld_drivers_register H F drv s).map (fun r => r.2)
  | Op.unregister => s3ip_sysfs_cpld_drivers_unregister s
  | Op.root_show a file => some (root_show H a file s).2
  | Op.child_show a obj buf => some (child_show H a obj buf s).2
  | Op.test_reg_store obj buf count value0 => some (cpld_test_reg_store H obj buf count value0 s).2

/-- The states the file can be in between calls, starting from module load. -/
inductive Reachable (H : switch_h) : State → Prop where
  | init : Reachable H State.init
  | step (op : Op) (s s1 : State) : Reachable H s → step H op s = some s1 → Reachable H s1

/-! ## Closed forms of the states and traces the registration code produces -/

/-- The node `cpld_sub_single_create_kobj_and_attrs` stores for child `k` under `parent`. -/
def child_obj (parent : kobject) (k : Nat) : switch_obj :=
  { kobj := { name := snprintf_cpld_u 8 k, parent := some parent.name }, index := k }

/-- The child array of length `n` whose first `m` slots are populated and the rest NULL. -/
def filled (parent : kobject) (m n : Nat) : List cpld_obj_s :=
  (List.range n).map (fun j => { obj := if j < m then some (child_obj parent (j + 1)) else none })

/-- The live nodes of children `m, m-1, ..., 1`, most recent first. -/
def child_nodes (parent : kobject) : Nat → List kobject
  | 0 => []
  | m + 1 => (child_obj parent (m + 1)).kobj :: child_nodes parent m

/-- The collaborator calls that create children `1..m` successfully. -/
def create_trace (parent : kobject) : Nat → List Event
  | 0 => []
  | m + 1 => create_trace parent m ++
      [Event.switch_kobject_create (snprintf_cpld_u 8 (m + 1)) (some parent.name) true,
       Event.sysfs_create_group (child_obj parent (m + 1)).kobj attribute_group.cpld_attr_group 0]

/-- The collaborator calls that remove children `m, m-1, ..., 1`. -/
def remove_trace (parent : kobject) : Nat → List Event
  | 0 => []
  | m + 1 =>
      [Event.sysfs_remove_group (child_obj parent (m + 1)).kobj attribute_group.cpld_attr_group,
       Event.switch_kobject_delete (child_obj parent (m + 1)).kobj] ++ remove_trace parent m

/-- The state while the children are being built: `m` of `n` children exist on top of `s0`. -/
def built (p : kobject) (n m : Nat) (s0 : State) : State :=
  { s0 with g_cpld := { s0.g_cpld with cpld := some (filled p m n) }
            nodes := child_nodes p m ++ s0.nodes
            trace := s0.trace ++ create_trace p m }

/-- The collaborator calls made by the failing creation of child `k`. -/
def fail_trace (F : Faults) (p : kobject) (k : Nat) : List Event :=
  if F.sub_kobject_ok k then
    [Event.switch_kobject_create (snprintf_cpld_u 8 k) (some p.name) true,
     Event.sysfs_create_group (child_obj p k).kobj attribute_group.cpld_attr_group
       (F.sub_group_ret k),
     Event.switch_kobject_delete (child_obj p k).kobj]
  else [Event.switch_kobject_create (snprintf_cpld_u 8 k) (some p.name) false]

/-- The root node `cpld_root_create` makes. -/
def root_kobj : kobject := { name := "cpld", parent := none }

/-- The root `switch_obj` stored in `g_cpld_obj`. -/
def root_obj : switch_obj := { kobj := root_kobj, index := 0 }

/-- The collaborator and driver calls of `Register` up to and including the root node. -/
def root_trace : List Event :=
  [Event.get_main_board_cpld_number,
   Event.switch_kobject_create "cpld" none true,
   Event.sysfs_create_group root_kobj attribute_group.cpld_root_attr_group 0]

/-- The collaborator calls of `cpld_root_remove` on a present root. -/
def root_remove_trace : List Event :=
  [Event.sysfs_remove_group root_kobj attribute_group.cpld_root_attr_group,
   Event.switch_kobject_delete root_kobj]

/-- The state after a successful `Register` of driver `d` with `n` children on top of `s`. -/
def registered (d : s3ip_sysfs_cpld_drivers_s) (n : Nat) (s : State) : State :=
  { g_cpld := { cpld_number := n, cpld := some (filled root_kobj n n) }
    g_cpld_obj := some root_obj
    g_cpld_drv := some d
    nodes := child_nodes root_kobj n ++ root_kobj :: s.nodes
    allocated := s.allocated + 1
    trace := s.trace ++ root_trace ++ [Event.kzalloc n true] ++ create_trace root_kobj n }

/-- The state after a `Register` that got a count `n > 0` and then failed, having made the
calls `t`: everything is unwound except `g_cpld.cpld_number`. -/
def unwound (n : Nat) (t : List Event) (s : State) : State :=
  { s with g_cpld := { cpld_number := n, cpld := none }
           g_cpld_obj := none
           g_cpld_drv := none
           trace := s.trace ++ t }

/-- Every collaborator call of the plan succeeds for the root, the child array and the
children `1..n`. -/
def Faults.ok_upto (F : Faults) (n : Nat) : Prop :=
  F.root_kobject_ok = true ∧ F.root_group_ret = 0 ∧ F.kzalloc_ok = true ∧
    ∀ k, 1 ≤ k → k ≤ n → F.sub_kobject_ok k = true ∧ F.sub_group_ret k = 0

/-- Nothing is registered: no driver, no root, no child array, no live node, no allocation. -/
def Idle (s : State) : Prop :=
  s.g_cpld_drv = none ∧ s.g_cpld_obj = none ∧ s.g_cpld.cpld = none ∧ s.nodes = [] ∧
    s.allocated = 0

/-- A complete tree is registered: a driver, the root and `cpld_number > 0` populated child
slots, and the live nodes are exactly the root and these children. -/
def Bound (s : State) : Prop :=
  ∃ d n, 0 < n ∧ s.g_cpld_drv = some d ∧ s.g_cpld_obj = some root_obj ∧
    s.g_cpld = { cpld_number := n, cpld := some (filled root_kobj n n) } ∧
    s.nodes = child_nodes root_kobj n ++ [root_kobj] ∧ s.allocated = 1

/-- The two states agree on everything but the trace of calls: the globals of the file, the
live nodes and the outstanding allocations. -/
def same_registry (s s1 : State) : Prop :=
  s1.g_cpld = s.g_cpld ∧ s1.g_cpld_obj = s.g_cpld_obj ∧ s1.g_cpld_drv = s.g_cpld_drv ∧
    s1.nodes = s.nodes ∧ s1.allocated = s.allocated

/-! ## Concrete inputs -/

/-- A header configuration: `check_p` yields `-EINVAL`, pages are 4096 bytes. -/
def H0 : switch_h := { check_p_err := -EINVAL, PAGE_SIZE := 4096 }

/-- A driver that only reports `n` devices. -/
def drv_count (n : Int) : s3ip_sysfs_cpld_drivers_s :=
  { get_main_board_cpld_number := some (fun _ => n)
    get_main_board_cpld_alias := none
    get_main_board_cpld_type := none
    get_main_board_cpld_firmware_version := none
    get_main_board_cpld_board_version := none
    get_main_board_cpld_test_reg := none
    set_main_board_cpld_test_reg := none }

/-- The plan in which everything succeeds except the creation of the node of child `k`. -/
def Faults.kobject_fails_at (k : Nat) : Faults :=
  { Faults.all_ok with sub_kobject_ok := fun j => j != k }

/-- The plan in which everything succeeds except the attribute group of child `k`. -/
def Faults.group_fails_at (k : Nat) : Faults :=
  { Faults.all_ok with sub_group_ret := fun j => if j = k then -ENOMEM else 0 }

/-- A driver with two devices whose getters print a fixed text and whose setter accepts every
value. -/
def drv_full : s3ip_sysfs_cpld_drivers_s :=
  { get_main_board_cpld_number := some (fun _ => 2)
    get_main_board_cpld_alias := some (fun _ _ _ => (5, "cpld\n"))
    get_main_board_cpld_type := some (fun _ _ _ => (4, "lcm\n"))
    get_main_board_cpld_firmware_version := some (fun index _ _ => (2, toString index ++ "\n"))
    get_main_board_cpld_board_version := some (fun _ _ _ => (-EINVAL, ""))
    get_main_board_cpld_test_reg := some (fun _ _ _ => (5, "0x5a\n"))
    set_main_board_cpld_test_reg := some (fun _ _ => 0) }

/-! ## Reference definition of the reboot-cause classifier -/

/-- The text of the reason: the content truncated at its first comma or NUL. -/
def reason_text (content : List Char) : List Char :=
  content.takeWhile (fun c => c != ',' && c != NUL)

/-- Reference definition of the classifier, following the specification: `none` stands for a
failed read and gives `NonHardware`; otherwise the result is the code of the first entry of the
table whose name is a prefix of the content truncated at its first comma (or NUL), and
`NonHardware` if there is no such entry. -/
def classify_spec (read : Option (List Char)) : Int :=
  match read with
  | none => REBOOT_CAUSE_NON_HARDWARE
  | some content =>
    match reboot_cause_file_info_match.find?
        (fun e => e.reboot_cause_name.data.isPrefixOf (reason_text content)) with
    | some e => e.reboot_cause_type
    | none => REBOOT_CAUSE_NON_HARDWARE

/-- The collaborator calls of the successful creation of child `k`. -/
def child_create_events (p : kobject) (k : Nat) : List Event :=
  [Event.switch_kobject_create (snprintf_cpld_u 8 k) (some p.name) true,
   Event.sysfs_create_group (child_obj p k).kobj attribute_group.cpld_attr_group 0]

/-- The collaborator calls of the removal of the populated child `k`. -/
def child_remove_events (p : kobject) (k : Nat) : List Event :=
  [Event.sysfs_remove_group (child_obj p k).kobj attribute_group.cpld_attr_group,
   Event.switch_kobject_delete (child_obj p k).kobj]

/-- The calls `t` of a `Register` call that asks for `n > 0` children and returns `r` are in
the stated order: children are created in the order `1, 2, ...`; after a failure at child `k`
the calls of the failed creation come first (ending with the deletion of child `k` if its node
had been created), then the removals of children `k - 1, ..., 1`, then `kfree`, and the root is
removed last. -/
def register_order (F : Faults) (n : Nat) (r : Int) (t : List Event) : Prop :=
  (r = 0 ∧ t = root_trace ++ [Event.kzalloc n true] ++
      (List.range' 1 n).flatMap (child_create_events root_kobj)) ∨
  (r < 0 ∧ t = [Event.get_main_board_cpld_number,
      Event.switch_kobject_create "cpld" none false]) ∨
  (r < 0 ∧ t = [Event.get_main_board_cpld_number,
      Event.switch_kobject_create "cpld" none true,
      Event.sysfs_create_group root_kobj attribute_group.cpld_root_attr_group F.root_group_ret,
      Event.switch_kobject_delete root_kobj]) ∨
  (r < 0 ∧ t = root_trace ++ [Event.kzalloc n false] ++ root_remove_trace) ∨
  (r < 0 ∧ ∃ k, 1 ≤ k ∧ k ≤ n ∧
    t = root_trace ++ [Event.kzalloc n true] ++
      (List.range' 1 (k - 1)).flatMap (child_create_events root_kobj) ++
      fail_trace F root_kobj k ++
      (List.range' 1 (k - 1)).reverse.flatMap (child_remove_events root_kobj) ++
      [Event.kfree] ++ root_remove_trace)

/-- The calls of an `Unregister` call that takes `u` to `u1` are in the stated order: nothing
if no driver is bound; otherwise the removals of children `cpld_number, ..., 1`, then `kfree`,
and the root is removed last. -/
def unregister_order (u u1 : State) : Prop :=
  (u.g_cpld_drv = none ∧ u1.trace = u.trace) ∨
  (u.g_cpld_drv ≠ none ∧
    u1.trace = u.trace ++
      (List.range' 1 u.g_cpld.cpld_number).reverse.flatMap (child_remove_events root_kobj) ++
      [Event.kfree] ++ root_remove_trace)

/-! ## The registry behind the node calls -/

theorem filled_length (p : kobject) (m n : Nat) : (filled p m n).length = n := by
  simp [filled]

theorem filled_getElem? (p : kobject) (m n j : Nat) (h : j < n) :
    (filled p m n)[j]? = some { obj := if j < m then some (child_obj p (j + 1)) else none } := by
  simp [filled, List.getElem?_map, List.getElem?_range h]

theorem filled_getElem?_none (p : kobject) (m n j : Nat) (h : n ≤ j) :
    (filled p m n)[j]? = none := by
  simp [filled, h]

theorem filled_zero (p : kobject) (n : Nat) :
    filled p 0 n = List.replicate n { obj := none } := by
  apply List.ext_getElem?
  intro j
  by_cases h : j < n
  · rw [filled_getElem? p 0 n j h]; simp [List.getElem?_replicate, h]
  · rw [filled_getElem?_none p 0 n j (by omega)]; simp [List.getElem?_replicate, h]

theorem filled_set_some (p : kobject) (m n : Nat) (h : m < n) :
    (filled p m n).set m { obj := some (child_obj p (m + 1)) } = filled p (m + 1) n := by
  apply List.ext_getElem?
  intro j
  by_cases hj : j < n
  · rw [List.getElem?_set, filled_getElem? p (m + 1) n j hj, filled_getElem? p m n j hj,
      filled_length]
    by_cases e : m = j
    · subst e; simp [h]
    · have : (j < m + 1) = (j < m) := by apply propext; omega
      simp [e, this]
  · rw [List.getElem?_set, filled_getElem?_none p (m + 1) n j (by omega),
      filled_getElem?_none p m n j (by omega), filled_length]
    have e : m ≠ j := by omega
    simp [e]

theorem filled_set_none (p : kobject) (m n : Nat) :
    (filled p m n).set m { obj := none } = filled p m n := by
  apply List.ext_getElem?
  intro j
  by_cases hj : j < n
  · rw [List.getElem?_set, filled_getElem? p m n j hj, filled_length]
    by_cases e : m = j
    · subst e; simp [hj]
    · simp [e]
  · rw [List.getElem?_set, filled_getElem?_none p m n j (by omega), filled_length]
    by_cases e : m = j
    · subst e; simp [hj]
    · simp [e]

theorem filled_set_none_succ (p : kobject) (m n : Nat) :
    (filled p (m + 1) n).set m { obj := none } = filled p m n := by
  apply List.ext_getElem?
  intro j
  by_cases hj : j < n
  · rw [List.getElem?_set, filled_getElem? p (m + 1) n j hj, filled_getElem? p m n j hj,
      filled_length]
    by_cases e : m = j
    · subst e; simp [hj]
    · have : (j < m + 1) = (j < m) := by apply propext; omega
      simp [e, this]
  · rw [List.getElem?_set, filled_getElem?_none p (m + 1) n j (by omega),
      filled_getElem?_none p m n j (by omega), filled_length]
    by_cases e : m = j
    · subst e; simp [hj]
    · simp [e]

theorem single_create_ok (F : Faults) (p : kobject) (n m : Nat) (s0 : State) (hm : m < n)
    (hk : F.sub_kobject_ok (m + 1) = true) (hg : F.sub_group_ret (m + 1) = 0) :
    cpld_sub_single_create_kobj_and_attrs F p (m + 1) (built p n m s0)
      = some (0, built p n (m + 1) s0) := by
  simp [cpld_sub_single_create_kobj_and_attrs, built, filled_getElem? p m n m hm,
    switch_kobject_create, sysfs_create_group, hk, hg, State.set_slot,
    child_nodes, create_trace, child_obj]
  exact filled_set_some p m n hm

theorem single_create_fail (F : Faults) (p : kobject) (n m : Nat) (s0 : State) (hm : m < n)
    (hf : F.sub_kobject_ok (m + 1) = false ∨ F.sub_group_ret (m + 1) ≠ 0) :
    cpld_sub_single_create_kobj_and_attrs F p (m + 1) (built p n m s0)
      = some (-EBADRQC, { built p n m s0 with
          trace := (built p n m s0).trace ++ fail_trace F p (m + 1) }) := by
  by_cases hk : F.sub_kobject_ok (m + 1) = true
  · have hg : F.sub_group_ret (m + 1) ≠ 0 := by
      rcases hf with h | h
      · rw [hk] at h; cases h
      · exact h
    simp [cpld_sub_single_create_kobj_and_attrs, built, filled_getElem? p m n m hm,
      switch_kobject_create, sysfs_create_group, switch_kobject_delete, hk, hg, State.set_slot,
      filled_set_none p m n, fail_trace, child_obj]
  · have hk' : F.sub_kobject_ok (m + 1) = false := by simpa using hk
    simp [cpld_sub_single_create_kobj_and_attrs, built, filled_getElem? p m n m hm,
      switch_kobject_create, hk', State.set_slot, filled_set_none p m n, fail_trace]

theorem create_loop_ok (F : Faults) (p : kobject) (n : Nat) (s0 : State)
    (hok : ∀ k, 1 ≤ k → k ≤ n → F.sub_kobject_ok k = true ∧ F.sub_group_ret k = 0) :
    ∀ (fuel m : Nat), m ≤ n → n - m < fuel →
      create_loop F p n fuel (m + 1) (built p n m s0) = some (none, built p n n s0) := by
  intro fuel
  induction fuel with
  | zero => intro m _ h; omega
  | succ fuel ih =>
    intro m hmn hfuel
    by_cases hlt : m < n
    · have h1 := hok (m + 1) (by omega) (by omega)
      have hle : m + 1 ≤ n := hlt
      simp only [create_loop, hle, if_true, single_create_ok F p n m s0 hlt h1.1 h1.2]
      simpa using ih (m + 1) (by omega) (by omega)
    · have e : m = n := by omega
      subst e
      simp [create_loop]

theorem create_loop_fail (F : Faults) (p : kobject) (n k : Nat) (s0 : State) (hk : 1 ≤ k)
    (hkn : k ≤ n)
    (hok : ∀ j, 1 ≤ j → j < k → F.sub_kobject_ok j = true ∧ F.sub_group_ret j = 0)
    (hf : F.sub_kobject_ok k = false ∨ F.sub_group_ret k ≠ 0) :
    ∀ (fuel m : Nat), m < k → n - m < fuel →
      create_loop F p n fuel (m + 1) (built p n m s0)
        = some (some k, { built p n (k - 1) s0 with
            trace := (built p n (k - 1) s0).trace ++ fail_trace F p k }) := by
  intro fuel
  induction fuel with
  | zero => intro m _ h; omega
  | succ fuel ih =>
    intro m hmk hfuel
    have hle : m + 1 ≤ n := by omega
    by_cases e : m + 1 = k
    · subst e
      simp [create_loop, hle, single_create_fail F p n m s0 (by omega) hf, EBADRQC]
    · have h1 := hok (m + 1) (by omega) (by omega)
      simp only [create_loop, hle, if_true, single_create_ok F p n m s0 (by omega) h1.1 h1.2]
      simpa using ih (m + 1) (by omega) (by omega)

theorem single_remove_some (p : kobject) (n m : Nat) (s : State) (base : List kobject)
    (hm : m < n) (hc : s.g_cpld.cpld = some (filled p (m + 1) n))
    (hn : s.nodes = child_nodes p (m + 1) ++ base) :
    cpld_sub_single_remove_kobj_and_attrs (m + 1) s
      = some (0, { s with
          g_cpld := { s.g_cpld with cpld := some (filled p m n) }
          nodes := child_nodes p m ++ base
          trace := s.trace ++
            [Event.sysfs_remove_group (child_obj p (m + 1)).kobj attribute_group.cpld_attr_group,
             Event.switch_kobject_delete (child_obj p (m + 1)).kobj] }) := by
  simp [cpld_sub_single_remove_kobj_and_attrs, hc, filled_getElem? p (m + 1) n m hm,
    sysfs_remove_group, switch_kobject_delete, State.set_slot, hn, child_nodes,
    filled_set_none_succ]

theorem single_remove_none (p : kobject) (n m : Nat) (s : State)
    (hm : m < n) (hc : s.g_cpld.cpld = some (filled p m n)) :
    cpld_sub_single_remove_kobj_and_attrs (m + 1) s = some (0, s) := by
  simp [cpld_sub_single_remove_kobj_and_attrs, hc, filled_getElem? p m n m hm]

theorem remove_loop_eq (p : kobject) (n : Nat) :
    ∀ (m : Nat) (s : State) (base : List kobject), m ≤ n →
      s.g_cpld.cpld = some (filled p m n) → s.nodes = child_nodes p m ++ base →
      remove_loop m s = some { s with
        g_cpld := { s.g_cpld with cpld := some (filled p 0 n) }
        nodes := base
        trace := s.trace ++ remove_trace p m } := by
  intro m
  induction m with
  | zero =>
    intro s base _ hc hn
    cases s with
    | mk g o d nd al tr =>
      cases g with
      | mk num arr =>
        simp only [child_nodes, List.nil_append] at hn
        simp only at hc
        subst hc; subst hn
        simp [remove_loop, remove_trace]
  | succ m ih =>
    intro s base hmn hc hn
    rw [remove_loop, single_remove_some p n m s base (by omega) hc hn]
    simp only
    rw [ih _ base (by omega) rfl rfl]
    simp [remove_trace]

theorem built_zero (p : kobject) (n : Nat) (s0 : State) :
    built p n 0 s0
      = { s0 with g_cpld := { s0.g_cpld with cpld := some (List.replicate n { obj := none }) } } := by
  simp [built, filled_zero, child_nodes, create_trace]

theorem sub_create_ok (F : Faults) (p : kobject) (n : Nat) (s : State)
    (ha : F.kzalloc_ok = true)
    (hok : ∀ k, 1 ≤ k → k ≤ n → F.sub_kobject_ok k = true ∧ F.sub_group_ret k = 0) :
    cpld_sub_create_kobj_and_attrs F p n s
      = some (0, built p n n { s with allocated := s.allocated + 1
                                      trace := s.trace ++ [Event.kzalloc n true] }) := by
  have h := create_loop_ok F p n { s with allocated := s.allocated + 1
                                          trace := s.trace ++ [Event.kzalloc n true] }
    hok (n + 1) 0 (Nat.zero_le n) (by omega)
  rw [built_zero] at h
  simp only [Nat.zero_add] at h
  simp only [cpld_sub_create_kobj_and_attrs, kzalloc, ha, if_true]
  rw [h]

theorem sub_create_alloc_fail (F : Faults) (p : kobject) (n : Nat) (s : State)
    (ha : F.kzalloc_ok = false) :
    cpld_sub_create_kobj_and_attrs F p n s
      = some (-ENOMEM, { s with g_cpld := { s.g_cpld with cpld := none }
                                trace := s.trace ++ [Event.kzalloc n false] }) := by
  simp [cpld_sub_create_kobj_and_attrs, kzalloc, ha]

theorem sub_create_fail (F : Faults) (p : kobject) (n m : Nat) (s : State)
    (ha : F.kzalloc_ok = true) (hmn : m < n)
    (hok : ∀ j, 1 ≤ j → j < m + 1 → F.sub_kobject_ok j = true ∧ F.sub_group_ret j = 0)
    (hf : F.sub_kobject_ok (m + 1) = false ∨ F.sub_group_ret (m + 1) ≠ 0) :
    cpld_sub_create_kobj_and_attrs F p n s
      = some (-EBADRQC, { s with
          g_cpld := { s.g_cpld with cpld := none }
          trace := s.trace ++ [Event.kzalloc n true] ++ create_trace p m ++
            fail_trace F p (m + 1) ++ remove_trace p m ++ [Event.kfree] }) := by
  have h := create_loop_fail F p n (m + 1)
    { s with allocated := s.allocated + 1, trace := s.trace ++ [Event.kzalloc n true] }
    (by omega) (by omega) hok hf (n + 1) 0 (by omega) (by omega)
  rw [built_zero] at h
  simp only [Nat.zero_add, Nat.add_sub_cancel] at h
  simp only [cpld_sub_create_kobj_and_attrs, kzalloc, ha, if_true]
  rw [h]
  simp only
  rw [remove_loop, single_remove_none p n m _ hmn rfl]
  simp only
  rw [remove_loop_eq p n m _ s.nodes (by omega) rfl rfl]
  simp [kfree, built]

theorem register_ok_eq (H : switch_h) (F : Faults) (d : s3ip_sysfs_cpld_drivers_s)
    (f : Unit → Int) (s : State) (hs : s.g_cpld_drv = none)
    (hd : d.get_main_board_cpld_number = some f) (hn : 0 < f ())
    (hr : F.root_kobject_ok = true) (hg : F.root_group_ret = 0) (ha : F.kzalloc_ok = true)
    (hok : ∀ k, 1 ≤ k → k ≤ (f ()).toNat → F.sub_kobject_ok k = true ∧ F.sub_group_ret k = 0) :
    s3ip_sysfs_cpld_drivers_register H F (some d) s
      = some (0, registered d (f ()).toNat s) := by
  have hn' : ¬ f () ≤ 0 := by omega
  simp [s3ip_sysfs_cpld_drivers_register, hs, hd, hn', cpld_root_create, switch_kobject_create,
    sysfs_create_group, hr, hg, cpld_sub_create, sub_create_ok F _ _ _ ha hok, registered,
    built, root_trace, root_kobj, root_obj]

theorem register_root_kobject_fail_eq (H : switch_h) (F : Faults)
    (d : s3ip_sysfs_cpld_drivers_s) (f : Unit → Int) (s : State) (hs : s.g_cpld_drv = none)
    (hd : d.get_main_board_cpld_number = some f) (hn : 0 < f ())
    (hr : F.root_kobject_ok = false) :
    s3ip_sysfs_cpld_drivers_register H F (some d) s
      = some (-ENOMEM, unwound (f ()).toNat
          [Event.get_main_board_cpld_number, Event.switch_kobject_create "cpld" none false] s) := by
  have hn' : ¬ f () ≤ 0 := by omega
  simp [s3ip_sysfs_cpld_drivers_register, hs, hd, hn', cpld_root_create, switch_kobject_create,
    hr, unwound, ENOMEM]

theorem register_root_group_fail_eq (H : switch_h) (F : Faults)
    (d : s3ip_sysfs_cpld_drivers_s) (f : Unit → Int) (s : State) (hs : s.g_cpld_drv = none)
    (hd : d.get_main_board_cpld_number = some f) (hn : 0 < f ())
    (hr : F.root_kobject_ok = true) (hg : F.root_group_ret ≠ 0) :
    s3ip_sysfs_cpld_drivers_register H F (some d) s
      = some (-EBADRQC, unwound (f ()).toNat
          [Event.get_main_board_cpld_number, Event.switch_kobject_create "cpld" none true,
           Event.sysfs_create_group root_kobj attribute_group.cpld_root_attr_group
             F.root_group_ret,
           Event.switch_kobject_delete root_kobj] s) := by
  have hn' : ¬ f () ≤ 0 := by omega
  simp [s3ip_sysfs_cpld_drivers_register, hs, hd, hn', cpld_root_create, switch_kobject_create,
    sysfs_create_group, switch_kobject_delete, hr, hg, unwound, EBADRQC, root_kobj]

theorem register_kzalloc_fail_eq (H : switch_h) (F : Faults)
    (d : s3ip_sysfs_cpld_drivers_s) (f : Unit → Int) (s : State) (hs : s.g_cpld_drv = none)
    (hd : d.get_main_board_cpld_number = some f) (hn : 0 < f ())
    (hr : F.root_kobject_ok = true) (hg : F.root_group_ret = 0) (ha : F.kzalloc_ok = false) :
    s3ip_sysfs_cpld_drivers_register H F (some d) s
      = some (-ENOMEM, unwound (f ()).toNat
          (root_trace ++ [Event.kzalloc (f ()).toNat false] ++ root_remove_trace) s) := by
  have hn' : ¬ f () ≤ 0 := by omega
  simp [s3ip_sysfs_cpld_drivers_register, hs, hd, hn', cpld_root_create, switch_kobject_create,
    sysfs_create_group, switch_kobject_delete, hr, hg, cpld_sub_create,
    sub_create_alloc_fail F _ _ _ ha, cpld_root_remove, sysfs_remove_group, unwound, ENOMEM,
    root_trace, root_remove_trace, root_kobj]

theorem register_child_fail_eq (H : switch_h) (F : Faults)
    (d : s3ip_sysfs_cpld_drivers_s) (f : Unit → Int) (s : State) (m : Nat)
    (hs : s.g_cpld_drv = none)
    (hd : d.get_main_board_cpld_number = some f) (hn : 0 < f ())
    (hr : F.root_kobject_ok = true) (hg : F.root_group_ret = 0) (ha : F.kzalloc_ok = true)
    (hmn : m < (f ()).toNat)
    (hok : ∀ j, 1 ≤ j → j < m + 1 → F.sub_kobject_ok j = true ∧ F.sub_group_ret j = 0)
    (hf : F.sub_kobject_ok (m + 1) = false ∨ F.sub_group_ret (m + 1) ≠ 0) :
    s3ip_sysfs_cpld_drivers_register H F (some d) s
      = some (-EBADRQC, unwound (f ()).toNat
          (root_trace ++ [Event.kzalloc (f ()).toNat true] ++ create_trace root_kobj m ++
            fail_trace F root_kobj (m + 1) ++ remove_trace root_kobj m ++ [Event.kfree] ++
            root_remove_trace) s) := by
  have hn' : ¬ f () ≤ 0 := by omega
  simp [s3ip_sysfs_cpld_drivers_register, hs, hd, hn', cpld_root_create, switch_kobject_create,
    sysfs_create_group, switch_kobject_delete, hr, hg, cpld_sub_create,
    sub_create_fail F _ _ m _ ha hmn hok hf, cpld_root_remove, sysfs_remove_group, unwound,
    EBADRQC, root_trace, root_remove_trace, root_kobj]

/-! ## Every outcome of `Register` and `Unregister` -/

theorem register_bound_eq (H : switch_h) (F : Faults) (drv : Option s3ip_sysfs_cpld_drivers_s)
    (s : State) (d0 : s3ip_sysfs_cpld_drivers_s) (hs : s.g_cpld_drv = some d0) :
    s3ip_sysfs_cpld_drivers_register H F drv s = some (-EPERM, s) := by
  simp [s3ip_sysfs_cpld_drivers_register, hs]

theorem register_no_devices_eq (H : switch_h) (F : Faults) (d : s3ip_sysfs_cpld_drivers_s)
    (f : Unit → Int) (s : State) (hs : s.g_cpld_drv = none)
    (hd : d.get_main_board_cpld_number = some f) (hn : f () ≤ 0) :
    s3ip_sysfs_cpld_drivers_register H F (some d) s
      = some (-EINVAL, { s with trace := s.trace ++ [Event.get_main_board_cpld_number] }) := by
  cases s with
  | mk g o dr nd al tr =>
    simp only at hs
    subst hs
    simp [s3ip_sysfs_cpld_drivers_register, hd, hn]

theorem exists_first_failure (F : Faults) (n : Nat)
    (h : ¬ ∀ k, 1 ≤ k → k ≤ n → F.sub_kobject_ok k = true ∧ F.sub_group_ret k = 0) :
    ∃ m, m < n ∧
      (∀ j, 1 ≤ j → j < m + 1 → F.sub_kobject_ok j = true ∧ F.sub_group_ret j = 0) ∧
      (F.sub_kobject_ok (m + 1) = false ∨ F.sub_group_ret (m + 1) ≠ 0) := by
  classical
  have hex : ∃ k, 1 ≤ k ∧ k ≤ n ∧ ¬ (F.sub_kobject_ok k = true ∧ F.sub_group_ret k = 0) := by
    by_contra hne
    apply h
    intro k h1 h2
    by_contra hk
    exact hne ⟨k, h1, h2, hk⟩
  obtain ⟨h1, h2, h3⟩ := Nat.find_spec hex
  refine ⟨Nat.find hex - 1, by omega, ?_, ?_⟩
  · intro j hj1 hj2
    by_contra hj
    have := Nat.find_min hex (m := j) (by omega)
    exact this ⟨hj1, by omega, hj⟩
  · have e : Nat.find hex - 1 + 1 = Nat.find hex := by omega
    rw [e]
    by_cases hk : F.sub_kobject_ok (Nat.find hex) = true
    · right
      intro hg
      exact h3 ⟨hk, hg⟩
    · left
      simpa using hk

theorem register_unbound_cases (H : switch_h) (F : Faults)
    (drv : Option s3ip_sysfs_cpld_drivers_s) (s : State) (hs : s.g_cpld_drv = none) :
    (s3ip_sysfs_cpld_drivers_register H F drv s = some (H.check_p_err, s) ∧
        (drv = none ∨ ∃ d, drv = some d ∧ d.get_main_board_cpld_number = none)) ∨
    (∃ d f, drv = some d ∧ d.get_main_board_cpld_number = some f ∧ f () ≤ 0 ∧
        s3ip_sysfs_cpld_drivers_register H F drv s
          = some (-EINVAL, { s with trace := s.trace ++ [Event.get_main_board_cpld_number] })) ∨
    (∃ d f, drv = some d ∧ d.get_main_board_cpld_number = some f ∧ 0 < f () ∧
        F.ok_upto (f ()).toNat ∧
        s3ip_sysfs_cpld_drivers_register H F drv s = some (0, registered d (f ()).toNat s)) ∨
    (∃ d f r t, drv = some d ∧ d.get_main_board_cpld_number = some f ∧ 0 < f () ∧ r < 0 ∧
        ¬ F.ok_upto (f ()).toNat ∧
        s3ip_sysfs_cpld_drivers_register H F drv s = some (r, unwound (f ()).toNat t s)) := by
  cases drv with
  | none => left; exact ⟨by simp [s3ip_sysfs_cpld_drivers_register, hs], Or.inl rfl⟩
  | some d =>
    cases hd : d.get_main_board_cpld_number with
    | none =>
      left
      exact ⟨by simp [s3ip_sysfs_cpld_drivers_register, hs, hd], Or.inr ⟨d, rfl, hd⟩⟩
    | some f =>
      right
      by_cases hn : f () ≤ 0
      · left
        exact ⟨d, f, rfl, hd, hn, register_no_devices_eq H F d f s hs hd hn⟩
      · right
        have hpos : 0 < f () := by omega
        by_cases hr : F.root_kobject_ok = true
        · by_cases hg : F.root_group_ret = 0
          · by_cases ha : F.kzalloc_ok = true
            · by_cases hall : ∀ k, 1 ≤ k → k ≤ (f ()).toNat →
                  F.sub_kobject_ok k = true ∧ F.sub_group_ret k = 0
              · left
                exact ⟨d, f, rfl, hd, hpos, ⟨hr, hg, ha, hall⟩,
                  register_ok_eq H F d f s hs hd hpos hr hg ha hall⟩
              · right
                obtain ⟨m, hm, hok, hf⟩ := exists_first_failure F _ hall
                exact ⟨d, f, -EBADRQC, _, rfl, hd, hpos, by decide, fun h => hall h.2.2.2,
                  register_child_fail_eq H F d f s m hs hd hpos hr hg ha hm hok hf⟩
            · right
              have ha' : F.kzalloc_ok = false := by simpa using ha
              exact ⟨d, f, -ENOMEM, _, rfl, hd, hpos, by decide, fun h => ha h.2.2.1,
                register_kzalloc_fail_eq H F d f s hs hd hpos hr hg ha'⟩
          · right
            exact ⟨d, f, -EBADRQC, _, rfl, hd, hpos, by decide, fun h => hg h.2.1,
              register_root_group_fail_eq H F d f s hs hd hpos hr hg⟩
        · right
          have hr' : F.root_kobject_ok = false := by simpa using hr
          exact ⟨d, f, -ENOMEM, _, rfl, hd, hpos, by decide, fun h => hr h.1,
            register_root_kobject_fail_eq H F d f s hs hd hpos hr'⟩

theorem unregister_unbound_eq (s : State) (hs : s.g_cpld_drv = none) :
    s3ip_sysfs_cpld_drivers_unregister s = some s := by
  simp [s3ip_sysfs_cpld_drivers_unregister, hs]

theorem unregister_bound_eq (s : State) (d : s3ip_sysfs_cpld_drivers_s) (n : Nat)
    (base : List kobject) (hd : s.g_cpld_drv = some d) (ho : s.g_cpld_obj = some root_obj)
    (hg : s.g_cpld = { cpld_number := n, cpld := some (filled root_kobj n n) })
    (hn : s.nodes = child_nodes root_kobj n ++ root_kobj :: base) :
    s3ip_sysfs_cpld_drivers_unregister s
      = some { g_cpld := { cpld_number := 0, cpld := none }
               g_cpld_obj := none
               g_cpld_drv := none
               nodes := base
               allocated := s.allocated - 1
               trace := s.trace ++ remove_trace root_kobj n ++ [Event.kfree] ++
                 root_remove_trace } := by
  have hc : s.g_cpld.cpld = some (filled root_kobj n n) := by rw [hg]
  have hnum : s.g_cpld.cpld_number = n := by rw [hg]
  simp only [s3ip_sysfs_cpld_drivers_unregister, hd, cpld_sub_remove, hc, hnum]
  rw [remove_loop_eq root_kobj n n s (root_kobj :: base) (Nat.le_refl n) hc hn]
  simp [kfree, cpld_root_remove, ho, sysfs_remove_group, switch_kobject_delete, root_obj,
    root_remove_trace]

theorem root_show_same_registry (H : switch_h) (a : root_attr) (file : file_state)
    (s : State) : same_registry s (root_show H a file s).2 := by
  cases a <;> simp [root_show, cpld_number_show, cpld_reboot_cause_show, same_registry]

theorem child_show_same_registry (H : switch_h) (a : child_attr) (obj : switch_obj)
    (buf : String) (s : State) : same_registry s (child_show H a obj buf s).2 := by
  cases a <;>
    simp only [child_show, cpld_alias_show, cpld_type_show, cpld_fw_version_show,
      cpld_board_version_show, cpld_test_reg_show, same_registry] <;>
    split <;> try split
  all_goals simp

theorem test_reg_store_same_registry (H : switch_h) (obj : switch_obj) (buf : String)
    (count value0 : Nat) (s : State) :
    same_registry s (cpld_test_reg_store H obj buf count value0 s).2 := by
  simp only [cpld_test_reg_store, same_registry]
  split
  · simp
  · split
    · simp
    · split <;> simp

theorem inv_of_same_registry (s s1 : State) (h : same_registry s s1)
    (hi : Idle s ∨ Bound s) : Idle s1 ∨ Bound s1 := by
  obtain ⟨e1, e2, e3, e4, e5⟩ := h
  rcases hi with ⟨h1, h2, h3, h4, h5⟩ | ⟨d, n, hn, h1, h2, h3, h4, h5⟩
  · left
    exact ⟨by rw [e3, h1], by rw [e2, h2], by rw [e1, h3], by rw [e4, h4], by rw [e5, h5]⟩
  · right
    exact ⟨d, n, hn, by rw [e3, h1], by rw [e2, h2], by rw [e1, h3], by rw [e4, h4],
      by rw [e5, h5]⟩

theorem reachable_inv (H : switch_h) (s : State) (h : Reachable H s) : Idle s ∨ Bound s := by
  induction h with
  | init => left; exact ⟨rfl, rfl, rfl, rfl, rfl⟩
  | step op s s1 _ hstep ih =>
    cases op with
    | register F drv =>
      simp only [step, Option.map_eq_some'] at hstep
      obtain ⟨⟨r, s'⟩, hreg, hs1⟩ := hstep
      simp only at hs1
      subst hs1
      rcases ih with hi | hb
      · obtain ⟨h1, h2, h3, h4, h5⟩ := hi
        rcases register_unbound_cases H F drv s h1 with
          ⟨e, _⟩ | ⟨d, f, _, _, _, e⟩ | ⟨d, f, _, _, hpos, _, e⟩ | ⟨d, f, r', t, _, _, _, _, _, e⟩
        · rw [e] at hreg; cases hreg
          left; exact ⟨h1, h2, h3, h4, h5⟩
        · rw [e] at hreg; cases hreg
          left; exact ⟨h1, h2, h3, h4, h5⟩
        · rw [e] at hreg; cases hreg
          right
          refine ⟨d, (f ()).toNat, by omega, rfl, rfl, rfl, ?_, ?_⟩
          · simp [registered, h4]
          · simp [registered, h5]
        · rw [e] at hreg; cases hreg
          left; exact ⟨rfl, rfl, rfl, h4, h5⟩
      · obtain ⟨d, n, hn, hd, hrest⟩ := hb
        rw [register_bound_eq H F drv s d hd] at hreg
        cases hreg
        right; exact ⟨d, n, hn, hd, hrest⟩
    | unregister =>
      simp only [step] at hstep
      rcases ih with hi | hb
      · rw [unregister_unbound_eq s hi.1] at hstep
        cases hstep
        left; exact hi
      · obtain ⟨d, n, _, hd, ho, hg, hn, hal⟩ := hb
        rw [unregister_bound_eq s d n [] hd ho hg hn] at hstep
        cases hstep
        left
        exact ⟨rfl, rfl, rfl, rfl, by simp [hal]⟩
    | root_show a file =>
      simp only [step, Option.some.injEq] at hstep
      subst hstep
      exact inv_of_same_registry s _ (root_show_same_registry H a file s) ih
    | child_show a obj buf =>
      simp only [step, Option.some.injEq] at hstep
      subst hstep
      exact inv_of_same_registry s _ (child_show_same_registry H a obj buf s) ih
    | test_reg_store obj buf count value0 =>
      simp only [step, Option.some.injEq] at hstep
      subst hstep
      exact inv_of_same_registry s _ (test_reg_store_same_registry H obj buf count value0 s) ih

/-! ## Node names -/

theorem registered_slot (d : s3ip_sysfs_cpld_drivers_s) (n k : Nat) (s : State) (h1 : 1 ≤ k)
    (hk : k ≤ n) :
    (registered d n s).g_cpld.cpld.bind (fun arr => arr[k - 1]?)
      = some { obj := some (child_obj root_kobj k) } := by
  have e : k - 1 + 1 = k := by omega
  simp [registered, filled_getElem? root_kobj n n (k - 1) (by omega), e]
  omega

/-! ## The claims -/

theorem idle_unwound (n : Nat) (t : List Event) (s : State) (h : Idle s) :
    Idle (unwound n t s) := by
  obtain ⟨_, _, _, h4, h5⟩ := h
  exact ⟨rfl, rfl, rfl, h4, h5⟩

/-- C2: registration failures fully unwind. From a state in which nothing is registered, with
a driver reporting `n > 0` devices, if the root creation fails (node or attribute group), or
the child-array allocation fails, or the creation of some child `k` in `1..n` fails (node or
attribute group) after children `1..k-1` succeeded, then `Register` returns a negative error
and afterwards nothing is registered: no driver is bound, the root pointer and the child array
are NULL, no node is live and no allocation is outstanding. -/
theorem C2_register_failure_unwinds (H : switch_h) (F : Faults)
    (d : s3ip_sysfs_cpld_drivers_s) (f : Unit → Int) (s : State) (hs : Idle s)
    (hd : d.get_main_board_cpld_number = some f) (hn : 0 < f ())
    (hfail :
      (F.root_kobject_ok = false ∨ F.root_group_ret ≠ 0) ∨
      F.kzalloc_ok = false ∨
      ∃ k, 1 ≤ k ∧ k ≤ (f ()).toNat ∧
        (∀ j, 1 ≤ j → j < k → F.sub_kobject_ok j = true ∧ F.sub_group_ret j = 0) ∧
        (F.sub_kobject_ok k = false ∨ F.sub_group_ret k ≠ 0)) :
    ∃ r s1, s3ip_sysfs_cpld_drivers_register H F (some d) s = some (r, s1) ∧ r < 0 ∧
      s1.g_cpld_drv = none ∧ s1.g_cpld_obj = none ∧ s1.g_cpld.cpld = none ∧
      s1.nodes = [] ∧ s1.allocated = 0 := by
  have hnot : ¬ F.ok_upto (f ()).toNat := by
    rintro ⟨h1, h2, h3, h4⟩
    rcases hfail with (h | h) | h | ⟨k, hk1, hk2, _, hk⟩
    · rw [h1] at h; cases h
    · exact h h2
    · rw [h3] at h; cases h
    · have := h4 k hk1 hk2
      rcases hk with hk | hk
      · rw [this.1] at hk; cases hk
      · exact hk this.2
  rcases register_unbound_cases H F (some d) s hs.1 with
    ⟨_, h | ⟨d1, h, h1⟩⟩ | ⟨d1, f1, h, h1, h2, _⟩ | ⟨d1, f1, h, h1, _, h2, _⟩ |
      ⟨d1, f1, r, t, h, h1, _, hr, _, e⟩
  · cases h
  · cases h; rw [hd] at h1; cases h1
  · cases h; rw [hd] at h1; cases h1; omega
  · cases h; rw [hd] at h1; cases h1; exact absurd h2 hnot
  · cases h; rw [hd] at h1; cases h1
    obtain ⟨_, _, _, h4, h5⟩ := hs
    exact ⟨r, _, e, hr, rfl, rfl, rfl, h4, h5⟩

/-- Witness of C2: three devices, the attribute group of child 2 cannot be created. -/
theorem C2_register_failure_unwinds_witness :
    Idle State.init ∧
    ∃ r s1, s3ip_sysfs_cpld_drivers_register H0 (Faults.group_fails_at 2)
        (some (drv_count 3)) State.init = some (r, s1) ∧ r < 0 ∧
      s1.g_cpld_drv = none ∧ s1.g_cpld_obj = none ∧ s1.g_cpld.cpld = none ∧
      s1.nodes = [] ∧ s1.allocated = 0 :=
  ⟨⟨rfl, rfl, rfl, rfl, rfl⟩,
    C2_register_failure_unwinds H0 (Faults.group_fails_at 2) (drv_count 3) (fun _ => 3)
      State.init ⟨rfl, rfl, rfl, rfl, rfl⟩ rfl (by decide)
      (Or.inr (Or.inr ⟨2, by decide, by decide,
        fun j h1 h2 => by
          have e : j = 1 := by omega
          subst e
          exact ⟨rfl, rfl⟩,
        Or.inr (by decide)⟩))⟩

/-- C3: for every driver whose `get_main_board_cpld_number` returns a value `≤ 0`, `Register`
called with no driver bound returns `-EINVAL`; the state afterwards is the state before with
the single driver call appended to the trace, so no node is created, the root pointer and the
child array are untouched and no driver is bound. -/
theorem C3_register_no_devices (H : switch_h) (F : Faults) (d : s3ip_sysfs_cpld_drivers_s)
    (f : Unit → Int) (s : State) (hs : s.g_cpld_drv = none)
    (hd : d.get_main_board_cpld_number = some f) (hn : f () ≤ 0) :
    ∃ s1, s3ip_sysfs_cpld_drivers_register H F (some d) s = some (-EINVAL, s1) ∧
      s1.g_cpld_drv = none ∧ s1.g_cpld_obj = s.g_cpld_obj ∧ s1.g_cpld = s.g_cpld ∧
      s1.nodes = s.nodes ∧ s1.allocated = s.allocated ∧
      s1.trace = s.trace ++ [Event.get_main_board_cpld_number] :=
  ⟨_, register_no_devices_eq H F d f s hs hd hn, hs, rfl, rfl, rfl, rfl, rfl⟩

/-- Witness of C3: a driver reporting 0 devices, from the initial state. -/
theorem C3_register_no_devices_witness :
    State.init.g_cpld_drv = none ∧
    ∃ s1, s3ip_sysfs_cpld_drivers_register H0 Faults.all_ok (some (drv_count 0)) State.init
        = some (-EINVAL, s1) ∧
      s1.g_cpld_drv = none ∧ s1.g_cpld_obj = State.init.g_cpld_obj ∧
      s1.g_cpld = State.init.g_cpld ∧ s1.nodes = State.init.nodes ∧
      s1.allocated = State.init.allocated ∧
      s1.trace = State.init.trace ++ [Event.get_main_board_cpld_number] :=
  ⟨rfl, C3_register_no_devices H0 Faults.all_ok (drv_count 0) (fun _ => 0) State.init rfl rfl
    (by decide)⟩

/-- C4: in every state in which a driver is bound, and for every driver argument and every
plan of collaborator outcomes, `Register` returns `-EPERM` and the state afterwards is the
state before: the bound driver, the root, the child count, the child slots, the live nodes
and the trace of collaborator and driver calls are all unchanged. -/
theorem C4_register_already_bound (H : switch_h) (F : Faults)
    (drv : Option s3ip_sysfs_cpld_drivers_s) (s : State) (d0 : s3ip_sysfs_cpld_drivers_s)
    (hs : s.g_cpld_drv = some d0) :
    s3ip_sysfs_cpld_drivers_register H F drv s = some (-EPERM, s) :=
  register_bound_eq H F drv s d0 hs

/-- Witness of C4: a second `Register` on the state a first one built. -/
theorem C4_register_already_bound_witness :
    (registered (drv_count 2) 2 State.init).g_cpld_drv = some (drv_count 2) ∧
    s3ip_sysfs_cpld_drivers_register H0 Faults.all_ok (some (drv_count 5))
        (registered (drv_count 2) 2 State.init)
      = some (-EPERM, registered (drv_count 2) 2 State.init) :=
  ⟨rfl, C4_register_already_bound H0 Faults.all_ok (some (drv_count 5))
    (registered (drv_count 2) 2 State.init) (drv_count 2) rfl⟩

/-- C5: `Unregister` is idempotent. In every state `t` with no bound driver it returns with
the state, live nodes and trace included, unchanged; and in every reachable state `s` it
returns, and calling it again on the result changes nothing. -/
theorem C5_unregister_idempotent (H : switch_h) (s t : State) (ht : t.g_cpld_drv = none)
    (hs : Reachable H s) :
    s3ip_sysfs_cpld_drivers_unregister t = some t ∧
    ∃ s1, s3ip_sysfs_cpld_drivers_unregister s = some s1 ∧
      s3ip_sysfs_cpld_drivers_unregister s1 = some s1 ∧
      (s3ip_sysfs_cpld_drivers_unregister s).bind s3ip_sysfs_cpld_drivers_unregister
        = s3ip_sysfs_cpld_drivers_unregister s := by
  refine ⟨unregister_unbound_eq t ht, ?_⟩
  rcases reachable_inv H s hs with hi | ⟨d, n, _, hd, ho, hg, hn, _⟩
  · have e := unregister_unbound_eq s hi.1
    exact ⟨s, e, e, by rw [e]; exact e⟩
  · have e := unregister_bound_eq s d n [] hd ho hg hn
    refine ⟨_, e, ?_, ?_⟩
    · exact unregister_unbound_eq _ rfl
    · rw [e, Option.some_bind]
      exact unregister_unbound_eq _ rfl

/-- Witness of C5: the initial state, which is reachable and has no bound driver. -/
theorem C5_unregister_idempotent_witness :
    State.init.g_cpld_drv = none ∧ Reachable H0 State.init ∧
    s3ip_sysfs_cpld_drivers_unregister State.init = some State.init ∧
    ∃ s1, s3ip_sysfs_cpld_drivers_unregister State.init = some s1 ∧
      s3ip_sysfs_cpld_drivers_unregister s1 = some s1 ∧
      (s3ip_sysfs_cpld_drivers_unregister State.init).bind s3ip_sysfs_cpld_drivers_unregister
        = s3ip_sysfs_cpld_drivers_unregister State.init :=
  ⟨rfl, Reachable.init, C5_unregister_idempotent H0 State.init State.init rfl Reachable.init⟩

/-- C6: in every state reached by a successful `Register` (return value 0) of a driver
reporting `n > 0` devices from a reachable state with no bound driver, `Unregister` removes
the `n` children in the order `n, ..., 1`, frees the child array and removes the root; the
resulting state is the initial state (no driver, no root, count 0, no child array, no live
node, no allocation) up to the trace of calls, and `cpld_number_show` prints 0. -/
theorem C6_unregister_restores_initial (H : switch_h) (F : Faults)
    (d : s3ip_sysfs_cpld_drivers_s) (f : Unit → Int) (s s1 : State) (hs : Reachable H s)
    (hu : s.g_cpld_drv = none) (hd : d.get_main_board_cpld_number = some f)
    (hreg : s3ip_sysfs_cpld_drivers_register H F (some d) s = some (0, s1)) :
    0 < f () ∧
    ∃ s2, s3ip_sysfs_cpld_drivers_unregister s1 = some s2 ∧
      { s2 with trace := [] } = State.init ∧
      s2.trace = s1.trace ++ remove_trace root_kobj (f ()).toNat ++ [Event.kfree] ++
        root_remove_trace ∧
      (cpld_number_show H s2).1 = snprintf H.PAGE_SIZE "0\n" := by
  have hidle : Idle s := by
    rcases reachable_inv H s hs with hi | ⟨d1, n, _, hd1, _⟩
    · exact hi
    · rw [hu] at hd1; cases hd1
  obtain ⟨_, _, _, h4, h5⟩ := hidle
  rcases register_unbound_cases H F (some d) s hu with
    ⟨_, h | ⟨d1, h, h1⟩⟩ | ⟨d1, f1, h, h1, h2, e⟩ | ⟨d1, f1, h, h1, hpos, _, e⟩ |
      ⟨d1, f1, r, t, h, h1, _, hr, _, e⟩
  · cases h
  · cases h; rw [hd] at h1; cases h1
  · cases h; rw [hd] at h1; cases h1
    rw [e] at hreg
    simp [EINVAL] at hreg
  · cases h; rw [hd] at h1; cases h1
    rw [e] at hreg
    simp only [Option.some.injEq, Prod.mk.injEq, true_and] at hreg
    subst hreg
    refine ⟨hpos, _, unregister_bound_eq _ d (f ()).toNat [] rfl rfl rfl
      (by simp [registered, h4]), ?_, rfl, ?_⟩
    · simp [registered, State.init, h5]
    · simp only [cpld_number_show]
      rfl
  · cases h; rw [hd] at h1; cases h1
    rw [e] at hreg
    simp only [Option.some.injEq, Prod.mk.injEq] at hreg
    omega

/-- Witness of C6: register a driver reporting 2 devices from the initial state. -/
theorem C6_unregister_restores_initial_witness :
    Reachable H0 State.init ∧
    s3ip_sysfs_cpld_drivers_register H0 Faults.all_ok (some (drv_count 2)) State.init
      = some (0, registered (drv_count 2) 2 State.init) ∧
    (0 : Int) < 2 ∧
    ∃ s2, s3ip_sysfs_cpld_drivers_unregister (registered (drv_count 2) 2 State.init)
        = some s2 ∧
      { s2 with trace := [] } = State.init ∧
      s2.trace = (registered (drv_count 2) 2 State.init).trace ++ remove_trace root_kobj 2 ++
        [Event.kfree] ++ root_remove_trace ∧
      (cpld_number_show H0 s2).1 = snprintf H0.PAGE_SIZE "0\n" :=
  ⟨Reachable.init, by rfl,
    C6_unregister_restores_initial H0 Faults.all_ok (drv_count 2) (fun _ => 2) State.init
      (registered (drv_count 2) 2 State.init) Reachable.init rfl rfl (by rfl)⟩

/-! ## The reboot-cause classifier -/

theorem char_toNat_sub_ne_zero (x y : Char) (h : x ≠ y) :
    (x.toNat : Int) - (y.toNat : Int) ≠ 0 := by
  intro e
  apply h
  have e1 : x.toNat = y.toNat := by omega
  rw [← Char.ofNat_toNat x, ← Char.ofNat_toNat y, e1]

theorem strlen_eq_length (name : List Char) (h : ∀ c ∈ name, c ≠ NUL) :
    strlen name = name.length := by
  induction name with
  | nil => rfl
  | cons c cs ih =>
    have hc : c ≠ NUL := h c (List.mem_cons_self c cs)
    simp [strlen, hc, ih (fun x hx => h x (List.mem_cons_of_mem c hx))]

theorem strncmp_eq_zero_iff (name : List Char) (h : ∀ c ∈ name, c ≠ NUL) :
    ∀ buf : List Char, strncmp name buf name.length = 0 ↔
      name.isPrefixOf (buf.takeWhile (fun c => c != NUL)) = true := by
  induction name with
  | nil => intro buf; simp [strncmp]
  | cons x xs ih =>
    intro buf
    have hx : x ≠ NUL := h x (List.mem_cons_self x xs)
    have ih1 := ih (fun c hc => h c (List.mem_cons_of_mem x hc))
    cases buf with
    | nil =>
      simp [strncmp, hx, char_toNat_sub_ne_zero x NUL hx]
    | cons y ys =>
      by_cases e : x = y
      · subst e
        simp [strncmp, hx, ih1 ys]
      · have hsub := char_toNat_sub_ne_zero x y e
        by_cases hy : y = NUL
        · subst hy
          simp [strncmp, hx, hsub]
        · simp [strncmp, e, hsub, hy]

theorem cut_at_comma (buf : List Char) :
    (match strchr ',' buf with
      | some point => buf.set point NUL
      | none => buf).takeWhile (fun c => c != NUL) = reason_text buf := by
  induction buf with
  | nil => simp [strchr, reason_text]
  | cons c cs ih =>
    by_cases h1 : c = ','
    · subst h1
      simp [strchr, reason_text, NUL]
    · by_cases h2 : c = NUL
      · subst h2
        simp [strchr, reason_text, h1]
      · simp only [strchr, h1, h2, if_false]
        cases hs : strchr ',' cs with
        | none =>
          rw [hs] at ih
          simp only [Option.map_none']
          simp only at ih
          simp [reason_text, h1, h2, List.takeWhile_cons] at ih ⊢
          exact ih
        | some i =>
          rw [hs] at ih
          simp only [Option.map_some', List.set_cons_succ]
          simp only at ih
          simp [reason_text, h1, h2, List.takeWhile_cons] at ih ⊢
          exact ih

theorem reason_text_append_nul (rd : List Char) (k : Nat) (hk : 0 < k) :
    reason_text (rd ++ List.replicate k NUL) = reason_text rd := by
  induction rd with
  | nil =>
    obtain ⟨j, rfl⟩ : ∃ j, k = j + 1 := ⟨k - 1, by omega⟩
    simp [reason_text, List.replicate_succ]
  | cons c cs ih =>
    simp only [reason_text, List.cons_append, List.takeWhile_cons] at ih ⊢
    split
    · rw [ih]
    · rfl

theorem table_names_no_nul :
    ∀ e ∈ reboot_cause_file_info_match, ∀ c ∈ e.reboot_cause_name.data, c ≠ NUL := by
  decide

theorem table_names_short :
    ∀ e ∈ reboot_cause_file_info_match, e.reboot_cause_name.data.length ≤ 62 := by
  decide

theorem scan_eq_find (buf : List Char) (table : List reboot_cause_file_info_s)
    (h : ∀ e ∈ table, ∀ c ∈ e.reboot_cause_name.data, c ≠ NUL) :
    reboot_cause_scan buf table =
      match table.find? (fun e =>
          e.reboot_cause_name.data.isPrefixOf (buf.takeWhile (fun c => c != NUL))) with
      | some e => e.reboot_cause_type
      | none => 0 := by
  induction table with
  | nil => rfl
  | cons e es ih =>
    have he := h e (List.mem_cons_self e es)
    have ih1 := ih (fun x hx => h x (List.mem_cons_of_mem e hx))
    simp only [reboot_cause_scan, strlen_eq_length _ he, List.find?_cons]
    by_cases hp : e.reboot_cause_name.data.isPrefixOf (buf.takeWhile (fun c => c != NUL)) = true
    · rw [if_pos ((strncmp_eq_zero_iff _ he buf).2 hp), hp]
    · have hn : ¬ strncmp e.reboot_cause_name.data buf e.reboot_cause_name.data.length = 0 :=
        fun h0 => hp ((strncmp_eq_zero_iff _ he buf).1 h0)
      have hp' : e.reboot_cause_name.data.isPrefixOf (buf.takeWhile (fun c => c != NUL))
          = false := Bool.eq_false_iff.2 hp
      rw [if_neg hn, hp', ih1]

theorem file_read_buffer (data : List Char) :
    (cpld_file_read (file_state.content data) (List.replicate REBOOT_CAUSE_NAME_LEN NUL)
        (REBOOT_CAUSE_NAME_LEN - 1)).2.1
      = data.take 62 ++ List.replicate (64 - (data.take 62).length) NUL := by
  have e : List.replicate 63 NUL ++ List.drop 63 (List.replicate 64 NUL)
      = List.replicate 64 NUL := by
    decide
  simp only [cpld_file_read, REBOOT_CAUSE_NAME_LEN]
  show List.take 62 data ++ List.drop (List.take 62 data).length
      (List.replicate 63 NUL ++ List.drop 63 (List.replicate 64 NUL)) = _
  rw [e, List.drop_replicate]

theorem reboot_cause_value_content (data : List Char) :
    (reboot_cause_value (file_state.content data)).1 = classify_spec (some (data.take 62)) := by
  have hlen : (data.take 62).length ≤ 62 := by simp
  have hret : ¬ (cpld_file_read (file_state.content data)
      (List.replicate REBOOT_CAUSE_NAME_LEN NUL) (REBOOT_CAUSE_NAME_LEN - 1)).1 < 0 := by
    simp only [cpld_file_read]
    omega
  simp only [reboot_cause_value, hret, if_false]
  rw [scan_eq_find _ _ table_names_no_nul, file_read_buffer, cut_at_comma,
    reason_text_append_nul _ _ (by omega)]
  rfl

theorem prefix_reason_text_take (name data : List Char) (h : name.length ≤ 62) :
    name.isPrefixOf (reason_text (data.take 62)) = name.isPrefixOf (reason_text data) := by
  have e : reason_text (data.take 62) = (reason_text data).take 62 := by
    simp only [reason_text]
    exact (List.take_takeWhile _ 62).symm
  rw [e, Bool.eq_iff_iff, List.isPrefixOf_iff_prefix, List.isPrefixOf_iff_prefix,
    List.prefix_take_iff]
  exact ⟨fun hp => hp.1, fun hp => ⟨hp, h⟩⟩

theorem classify_spec_take (data : List Char) :
    classify_spec (some (data.take 62)) = classify_spec (some data) := by
  have key : ∀ table : List reboot_cause_file_info_s,
      (∀ e ∈ table, e.reboot_cause_name.data.length ≤ 62) →
      table.find? (fun e => e.reboot_cause_name.data.isPrefixOf (reason_text (data.take 62)))
        = table.find? (fun e => e.reboot_cause_name.data.isPrefixOf (reason_text data)) := by
    intro table
    induction table with
    | nil => intro _; rfl
    | cons e es ih =>
      intro h
      simp only [List.find?_cons,
        prefix_reason_text_take _ data (h e (List.mem_cons_self e es)),
        ih (fun x hx => h x (List.mem_cons_of_mem e hx))]
  simp only [classify_spec, key _ table_names_short]

/-- C7: the reboot-cause classifier equals the reference definition. When the file cannot be
opened or read the value printed is `NonHardware` (0); otherwise it is the code of the first
entry of `reboot_cause_file_info_match` whose name is a byte-exact prefix of the content
truncated at its first comma or NUL (0 if there is none), whether the content is taken to be
the 62 bytes the code reads or the whole file. The three inputs named in the claim give 3, 1
and 0, and `cpld_reboot_cause_show` prints the value with `snprintf`. -/
theorem C7_classifier_refines_spec (H : switch_h) (s : State) (err : Nat) (data : List Char) :
    (reboot_cause_value file_state.absent).1 = classify_spec none ∧
    (reboot_cause_value (file_state.unreadable err)).1 = classify_spec none ∧
    (reboot_cause_value (file_state.content data)).1 = classify_spec (some (data.take 62)) ∧
    (reboot_cause_value (file_state.content data)).1 = classify_spec (some data) ∧
    (cpld_reboot_cause_show H (file_state.content data) s).1
      = snprintf H.PAGE_SIZE (toString (classify_spec (some data)) ++ "\n") ∧
    classify_spec none = REBOOT_CAUSE_NON_HARDWARE ∧
    (reboot_cause_value (file_state.content "Thermal Overload: ASIC,2024-01-01".data)).1
      = REBOOT_CAUSE_THERMAL_OVERLOAD_ASIC ∧
    (reboot_cause_value (file_state.content "Power Loss".data)).1 = REBOOT_CAUSE_POWER_LOSS := by
  refine ⟨?_, ?_, reboot_cause_value_content data, ?_, ?_, rfl, by decide, by decide⟩
  · decide
  · have h : (-1 : Int) < (err : Int) := by omega
    simp [reboot_cause_value, cpld_file_read, h, classify_spec, REBOOT_CAUSE_NON_HARDWARE]
  · rw [reboot_cause_value_content, classify_spec_take]
  · simp only [cpld_reboot_cause_show]
    rw [reboot_cause_value_content, classify_spec_take]

/-! ## Attribute shims -/

/-- C8: for every child node, every input buffer and length `count`, and every bound driver
that has `set_main_board_cpld_test_reg`: the setter is called once, with the node's index and
the parsed value; if it returns `r < 0` then `cpld_test_reg_store` returns exactly `r`, and if
it returns any `r ≥ 0` then `cpld_test_reg_store` returns `count`, whatever `r` is. -/
theorem C8_test_reg_store_result (H : switch_h) (obj : switch_obj) (buf : String)
    (count value0 : Nat) (s : State) (d : s3ip_sysfs_cpld_drivers_s) (set : Nat → Nat → Int)
    (hd : s.g_cpld_drv = some d) (hset : d.set_main_board_cpld_test_reg = some set) :
    ∀ r, set obj.index ((sscanf_0x_x buf.data).getD value0) = r →
      (r < 0 → (cpld_test_reg_store H obj buf count value0 s).1 = r) ∧
      (0 ≤ r → (cpld_test_reg_store H obj buf count value0 s).1 = (count : Int)) ∧
      (cpld_test_reg_store H obj buf count value0 s).2.trace = s.trace ++
        [Event.set_main_board_cpld_test_reg obj.index ((sscanf_0x_x buf.data).getD value0)] := by
  intro r hr
  simp only [cpld_test_reg_store, hd, hset, hr]
  refine ⟨fun h => by simp [h], fun h => ?_, ?_⟩
  · have h' : ¬ r < 0 := by omega
    simp [h']
  · split <;> rfl

/-- Witness of C8: writing `0x2a` (4 bytes) to child 1 with an always-accepting setter
returns 4. -/
theorem C8_test_reg_store_result_witness :
    (registered drv_full 2 State.init).g_cpld_drv = some drv_full ∧
    drv_full.set_main_board_cpld_test_reg = some (fun _ _ => 0) ∧
    (cpld_test_reg_store H0 (child_obj root_kobj 1) "0x2a" 4 0
      (registered drv_full 2 State.init)).1 = 4 ∧
    (cpld_test_reg_store H0 (child_obj root_kobj 1) "0x2a" 4 0
      (registered drv_full 2 State.init)).2.trace = (registered drv_full 2 State.init).trace ++
        [Event.set_main_board_cpld_test_reg 1 42] :=
  ⟨rfl, rfl,
    ((C8_test_reg_store_result H0 (child_obj root_kobj 1) "0x2a" 4 0
      (registered drv_full 2 State.init) drv_full (fun _ _ => 0) rfl rfl 0 rfl).2.1
        (by decide)),
    ((C8_test_reg_store_result H0 (child_obj root_kobj 1) "0x2a" 4 0
      (registered drv_full 2 State.init) drv_full (fun _ _ => 0) rfl rfl 0 rfl).2.2)⟩

/-- C9: for each child-node attribute operation (the five reads and the `reg_test` write), if
no driver is bound, or a driver is bound but the capability function pointer of that operation
is NULL, the operation returns the error value of `check_p`, leaves the buffer as it was and
leaves the whole state, trace of driver calls included, unchanged; so a read of a root
attribute (`number`, `reboot_cause`) afterwards gives what it gave before, and its return value
is not negative. -/
theorem C9_child_attr_not_supported (H : switch_h) (a : child_attr) (r : root_attr)
    (obj : switch_obj) (buf : String) (count value0 : Nat) (file : file_state) (s : State) :
    ((s.g_cpld_drv = none ∨ ∃ d, s.g_cpld_drv = some d ∧ child_getter a d = none) →
      child_show H a obj buf s = ((H.check_p_err, buf), s) ∧
      (root_show H r file (child_show H a obj buf s).2).1 = (root_show H r file s).1) ∧
    ((s.g_cpld_drv = none ∨
        ∃ d, s.g_cpld_drv = some d ∧ d.set_main_board_cpld_test_reg = none) →
      cpld_test_reg_store H obj buf count value0 s = (H.check_p_err, s) ∧
      (root_show H r file (cpld_test_reg_store H obj buf count value0 s).2).1
        = (root_show H r file s).1) ∧
    0 ≤ (root_show H r file s).1.1 := by
  refine ⟨fun h => ?_, fun h => ?_, ?_⟩
  · have e : child_show H a obj buf s = ((H.check_p_err, buf), s) := by
      rcases h with h | ⟨d, hd, hg⟩
      · cases a <;>
          simp [child_show, cpld_alias_show, cpld_type_show, cpld_fw_version_show,
            cpld_board_version_show, cpld_test_reg_show, h]
      · cases a <;>
          simp [child_show, cpld_alias_show, cpld_type_show, cpld_fw_version_show,
            cpld_board_version_show, cpld_test_reg_show, hd] <;>
          simp [child_getter] at hg <;> simp [hg]
    exact ⟨e, by rw [e]⟩
  · have e : cpld_test_reg_store H obj buf count value0 s = (H.check_p_err, s) := by
      rcases h with h | ⟨d, hd, hg⟩
      · simp [cpld_test_reg_store, h]
      · simp [cpld_test_reg_store, hd, hg]
    exact ⟨e, by rw [e]⟩
  · cases r <;> simp only [root_show, cpld_number_show, cpld_reboot_cause_show, snprintf] <;>
      exact Int.natCast_nonneg _

/-- Witness of C9: in the initial state no driver is bound; with `drv_count 2` bound the
driver has no `alias` getter and no setter. -/
theorem C9_child_attr_not_supported_witness :
    State.init.g_cpld_drv = none ∧
    (child_show H0 child_attr.alias (child_obj root_kobj 1) "" State.init
        = ((H0.check_p_err, ""), State.init) ∧
      (root_show H0 root_attr.number file_state.absent
        (child_show H0 child_attr.alias (child_obj root_kobj 1) "" State.init).2).1
        = (root_show H0 root_attr.number file_state.absent State.init).1) ∧
    (cpld_test_reg_store H0 (child_obj root_kobj 1) "0x2a" 4 0
        (registered (drv_count 2) 2 State.init)
        = (H0.check_p_err, registered (drv_count 2) 2 State.init) ∧
      (root_show H0 root_attr.number file_state.absent
        (cpld_test_reg_store H0 (child_obj root_kobj 1) "0x2a" 4 0
          (registered (drv_count 2) 2 State.init)).2).1
        = (root_show H0 root_attr.number file_state.absent
            (registered (drv_count 2) 2 State.init)).1) :=
  ⟨rfl,
    (C9_child_attr_not_supported H0 child_attr.alias root_attr.number (child_obj root_kobj 1)
      "" 0 0 file_state.absent State.init).1 (Or.inl rfl),
    (C9_child_attr_not_supported H0 child_attr.alias root_attr.number (child_obj root_kobj 1)
      "0x2a" 4 0 file_state.absent (registered (drv_count 2) 2 State.init)).2.1
      (Or.inr ⟨drv_count 2, rfl, rfl⟩)⟩

/-- C10: after a successful `Register` (return value 0) of a driver reporting `n` devices from
a reachable state with no bound driver, for every `k` in `1..n` slot `k - 1` holds a node, and
for each read attribute whose capability function is present, reading it on that node calls
that function exactly once, with device index `k`, and returns what the function returns:
the return value and the buffer text are the driver's, and the only change of state is the
one call appended to the trace. -/
theorem C10_child_show_dispatch (H : switch_h) (F : Faults) (d : s3ip_sysfs_cpld_drivers_s)
    (f : Unit → Int) (s s1 : State) (a : child_attr) (k : Nat) (buf : String)
    (get : Nat → String → Nat → Int × String) (hs : s.g_cpld_drv = none)
    (hd : d.get_main_board_cpld_number = some f)
    (hreg : s3ip_sysfs_cpld_drivers_register H F (some d) s = some (0, s1))
    (h1 : 1 ≤ k) (hk : (k : Int) ≤ f ()) (hcap : child_getter a d = some get) :
    ∃ o, s1.g_cpld.cpld.bind (fun arr => arr[k - 1]?) = some { obj := some o } ∧
      o.index = k ∧
      child_show H a o buf s1
        = (get k buf H.PAGE_SIZE,
            { s1 with trace := s1.trace ++ [child_getter_event a k H.PAGE_SIZE] }) := by
  have hs1 : s1 = registered d (f ()).toNat s := by
    rcases register_unbound_cases H F (some d) s hs with
      ⟨_, h | ⟨d1, h, h1⟩⟩ | ⟨d1, f1, h, h1, h2, e⟩ | ⟨d1, f1, h, h1, hpos, _, e⟩ |
        ⟨d1, f1, r, t, h, h1, _, hr, _, e⟩
    · cases h
    · cases h; rw [hd] at h1; cases h1
    · cases h; rw [hd] at h1; cases h1
      rw [e] at hreg
      simp [EINVAL] at hreg
    · cases h; rw [hd] at h1; cases h1
      rw [e] at hreg
      simp only [Option.some.injEq, Prod.mk.injEq, true_and] at hreg
      exact hreg.symm
    · cases h; rw [hd] at h1; cases h1
      rw [e] at hreg
      simp only [Option.some.injEq, Prod.mk.injEq] at hreg
      omega
  subst hs1
  refine ⟨child_obj root_kobj k, registered_slot d (f ()).toNat k s h1 (by omega), rfl, ?_⟩
  cases a <;>
    simp only [child_getter] at hcap <;>
    simp [child_show, cpld_alias_show, cpld_type_show, cpld_fw_version_show,
      cpld_board_version_show, cpld_test_reg_show, registered, hcap, child_obj,
      child_getter_event]

/-- Witness of C10: reading `firmware_version` on child 2 of a registered two-device driver
calls the getter with index 2 and returns its result. -/
theorem C10_child_show_dispatch_witness :
    State.init.g_cpld_drv = none ∧
    s3ip_sysfs_cpld_drivers_register H0 Faults.all_ok (some drv_full) State.init
      = some (0, registered drv_full 2 State.init) ∧
    ∃ o, (registered drv_full 2 State.init).g_cpld.cpld.bind (fun arr => arr[2 - 1]?)
        = some { obj := some o } ∧
      o.index = 2 ∧
      child_show H0 child_attr.firmware_version o "" (registered drv_full 2 State.init)
        = ((fun index _ _ => (2, toString index ++ "\n")) 2 "" H0.PAGE_SIZE,
            { registered drv_full 2 State.init with
              trace := (registered drv_full 2 State.init).trace ++
                [child_getter_event child_attr.firmware_version 2 H0.PAGE_SIZE] }) :=
  ⟨rfl, by rfl,
    C10_child_show_dispatch H0 Faults.all_ok drv_full (fun _ => 2) State.init
      (registered drv_full 2 State.init) child_attr.firmware_version 2 ""
      (fun index _ _ => (2, toString index ++ "\n")) rfl rfl (by rfl) (by decide) (by decide)
      rfl⟩

/-! ## Invariants of the registry -/

theorem mem_child_nodes (p : kobject) (n k : Nat) (h1 : 1 ≤ k) (hk : k ≤ n) :
    (child_obj p k).kobj ∈ child_nodes p n := by
  induction n with
  | zero => omega
  | succ n ih =>
    by_cases e : k = n + 1
    · subst e
      simp [child_nodes]
    · simp only [child_nodes, List.mem_cons]
      right
      exact ih (by omega)

theorem length_child_nodes (p : kobject) (n : Nat) : (child_nodes p n).length = n := by
  induction n with
  | zero => rfl
  | succ n ih => simp [child_nodes, ih]

theorem mem_filled (p : kobject) (n : Nat) (c : cpld_obj_s) (h : c ∈ filled p n n) :
    ∃ k, 1 ≤ k ∧ k ≤ n ∧ c = { obj := some (child_obj p k) } := by
  simp only [filled, List.mem_map, List.mem_range] at h
  obtain ⟨j, hj, e⟩ := h
  refine ⟨j + 1, by omega, by omega, ?_⟩
  rw [← e]
  simp [hj]

/-- C12: the registry invariant. In every state reachable from the initial state by any
sequence of `Register` and `Unregister` calls (with arbitrary drivers and arbitrary collaborator
failures) and attribute reads and writes, either no driver is bound, the root pointer and the
child array are NULL and no node is live, or a driver is bound, the root is present and live,
and the child array has exactly `cpld_number > 0` slots, every one holding a live node, the
live nodes being the root and these children. -/
theorem C12_registry_invariant (H : switch_h) (s : State) (hs : Reachable H s) :
    (s.g_cpld_drv = none ∧ s.g_cpld_obj = none ∧ s.g_cpld.cpld = none ∧ s.nodes = []) ∨
    (∃ d root arr, s.g_cpld_drv = some d ∧ s.g_cpld_obj = some root ∧ root.kobj ∈ s.nodes ∧
      s.g_cpld.cpld = some arr ∧ 0 < s.g_cpld.cpld_number ∧
      arr.length = s.g_cpld.cpld_number ∧
      (∀ c ∈ arr, ∃ o, c.obj = some o ∧ o.kobj ∈ s.nodes) ∧
      s.nodes.length = s.g_cpld.cpld_number + 1) := by
  rcases reachable_inv H s hs with ⟨h1, h2, h3, h4, _⟩ | ⟨d, n, hn, h1, h2, h3, h4, _⟩
  · left
    exact ⟨h1, h2, h3, h4⟩
  · right
    refine ⟨d, root_obj, filled root_kobj n n, h1, h2, ?_, by rw [h3], by rw [h3]; exact hn,
      by rw [h3]; exact filled_length root_kobj n n, ?_, ?_⟩
    · rw [h4]
      exact List.mem_append_right _ (List.mem_singleton.2 rfl)
    · intro c hc
      obtain ⟨k, hk1, hk2, e⟩ := mem_filled root_kobj n c hc
      refine ⟨child_obj root_kobj k, by rw [e], ?_⟩
      rw [h4]
      exact List.mem_append_left _ (mem_child_nodes root_kobj n k hk1 hk2)
    · rw [h4, h3]
      simp [length_child_nodes]

/-- Witness of C12: the state after registering a driver with two devices is reachable. -/
theorem C12_registry_invariant_witness :
    Reachable H0 (registered (drv_count 2) 2 State.init) ∧
    (((registered (drv_count 2) 2 State.init).g_cpld_drv = none ∧
        (registered (drv_count 2) 2 State.init).g_cpld_obj = none ∧
        (registered (drv_count 2) 2 State.init).g_cpld.cpld = none ∧
        (registered (drv_count 2) 2 State.init).nodes = []) ∨
      (∃ d root arr, (registered (drv_count 2) 2 State.init).g_cpld_drv = some d ∧
        (registered (drv_count 2) 2 State.init).g_cpld_obj = some root ∧
        root.kobj ∈ (registered (drv_count 2) 2 State.init).nodes ∧
        (registered (drv_count 2) 2 State.init).g_cpld.cpld = some arr ∧
        0 < (registered (drv_count 2) 2 State.init).g_cpld.cpld_number ∧
        arr.length = (registered (drv_count 2) 2 State.init).g_cpld.cpld_number ∧
        (∀ c ∈ arr, ∃ o, c.obj = some o ∧
          o.kobj ∈ (registered (drv_count 2) 2 State.init).nodes) ∧
        (registered (drv_count 2) 2 State.init).nodes.length
          = (registered (drv_count 2) 2 State.init).g_cpld.cpld_number + 1)) :=
  ⟨Reachable.step (Op.register Faults.all_ok (some (drv_count 2))) State.init _
      Reachable.init (by rfl),
    C12_registry_invariant H0 (registered (drv_count 2) 2 State.init)
      (Reachable.step (Op.register Faults.all_ok (some (drv_count 2))) State.init _
        Reachable.init (by rfl))⟩

/-- C13: attribute operations are local. Every attribute read or write shim (`number`,
`reboot_cause`, `alias`, `type`, `firmware_version`, `board_version`, `reg_test` read and
write), whether it succeeds or fails and whatever the driver callbacks return, leaves the bound
driver, the root pointer, `cpld_number`, every child slot, the live nodes and the outstanding
allocations as they were; only the trace of calls grows. -/
theorem C13_attribute_ops_frame (H : switch_h) (r : root_attr) (a : child_attr)
    (obj : switch_obj) (buf : String) (count value0 : Nat) (file : file_state) (s : State) :
    same_registry s (root_show H r file s).2 ∧
    same_registry s (child_show H a obj buf s).2 ∧
    same_registry s (cpld_test_reg_store H obj buf count value0 s).2 ∧
    (∃ t, (root_show H r file s).2.trace = s.trace ++ t) ∧
    (∃ t, (child_show H a obj buf s).2.trace = s.trace ++ t) ∧
    (∃ t, (cpld_test_reg_store H obj buf count value0 s).2.trace = s.trace ++ t) := by
  refine ⟨root_show_same_registry H r file s, child_show_same_registry H a obj buf s,
    test_reg_store_same_registry H obj buf count value0 s, ?_, ?_, ?_⟩
  · cases r
    · exact ⟨[], (List.append_nil _).symm⟩
    · exact ⟨_, rfl⟩
  · cases a <;>
      simp only [child_show, cpld_alias_show, cpld_type_show, cpld_fw_version_show,
        cpld_board_version_show, cpld_test_reg_show] <;>
      split <;> try split
    all_goals first
      | exact ⟨_, rfl⟩
      | exact ⟨[], (List.append_nil _).symm⟩
  · simp only [cpld_test_reg_store]
    split
    · exact ⟨[], (List.append_nil _).symm⟩
    · split
      · exact ⟨[], (List.append_nil _).symm⟩
      · split <;> exact ⟨_, rfl⟩

theorem single_create_isSome_iff (F : Faults) (p : kobject) (index : Nat) (s : State) :
    (cpld_sub_single_create_kobj_and_attrs F p index s).isSome = true ↔
      ∃ arr, s.g_cpld.cpld = some arr ∧ 1 ≤ index ∧ index ≤ arr.length := by
  unfold cpld_sub_single_create_kobj_and_attrs
  cases hc : s.g_cpld.cpld with
  | none => simp
  | some arr =>
    by_cases h0 : index = 0
    · simp [h0]
    · simp only [h0, if_false, Option.some.injEq, exists_eq_left']
      by_cases hlt : index - 1 < arr.length
      · rw [List.getElem?_eq_getElem hlt]
        simp only
        constructor
        · intro _; omega
        · intro _
          split
          · rfl
          · split <;> rfl
      · rw [List.getElem?_eq_none (by omega)]
        simp only [Option.isSome_none, Bool.false_eq_true, false_iff]
        omega

theorem single_remove_isSome_iff (index : Nat) (s : State) :
    (cpld_sub_single_remove_kobj_and_attrs index s).isSome = true ↔
      ∃ arr, s.g_cpld.cpld = some arr ∧ 1 ≤ index ∧ index ≤ arr.length := by
  unfold cpld_sub_single_remove_kobj_and_attrs
  cases hc : s.g_cpld.cpld with
  | none => simp
  | some arr =>
    by_cases h0 : index = 0
    · simp [h0]
    · simp only [h0, if_false, Option.some.injEq, exists_eq_left']
      by_cases hlt : index - 1 < arr.length
      · rw [List.getElem?_eq_getElem hlt]
        simp only
        constructor
        · intro _; omega
        · intro _
          split <;> rfl
      · rw [List.getElem?_eq_none (by omega)]
        simp only [Option.isSome_none, Bool.false_eq_true, false_iff]
        omega

theorem register_isSome (H : switch_h) (F : Faults) (drv : Option s3ip_sysfs_cpld_drivers_s)
    (s : State) : (s3ip_sysfs_cpld_drivers_register H F drv s).isSome = true := by
  cases hd : s.g_cpld_drv with
  | some d0 => rw [register_bound_eq H F drv s d0 hd]; rfl
  | none =>
    rcases register_unbound_cases H F drv s hd with
      ⟨e, _⟩ | ⟨_, _, _, _, _, e⟩ | ⟨_, _, _, _, _, _, e⟩ | ⟨_, _, _, _, _, _, _, _, _, e⟩ <;>
      rw [e] <;> rfl

theorem unregister_isSome (H : switch_h) (s : State) (hs : Reachable H s) :
    (s3ip_sysfs_cpld_drivers_unregister s).isSome = true := by
  rcases reachable_inv H s hs with hi | ⟨d, n, _, hd, ho, hg, hn, _⟩
  · rw [unregister_unbound_eq s hi.1]; rfl
  · rw [unregister_bound_eq s d n [] hd ho hg hn]; rfl

/-- C19: child-slot indexing is always in bounds. An access `g_cpld.cpld[index - 1]` by
`cpld_sub_single_create_kobj_and_attrs` or `cpld_sub_single_remove_kobj_and_attrs` is
defined exactly when the child array is allocated and `1 ≤ index ≤` its length, and an
undefined access makes the whole call undefined; in every reachable state every `Register`
call (with any driver and any collaborator failures, its rollback loop included) and every
`Unregister` call is defined, so each such access they make is within the allocated array. -/
theorem C19_child_index_in_bounds (H : switch_h) (F : Faults)
    (drv : Option s3ip_sysfs_cpld_drivers_s) (p : kobject) (index : Nat) (u s : State)
    (hs : Reachable H s) :
    ((cpld_sub_single_create_kobj_and_attrs F p index u).isSome = true ↔
      ∃ arr, u.g_cpld.cpld = some arr ∧ 1 ≤ index ∧ index ≤ arr.length) ∧
    ((cpld_sub_single_remove_kobj_and_attrs index u).isSome = true ↔
      ∃ arr, u.g_cpld.cpld = some arr ∧ 1 ≤ index ∧ index ≤ arr.length) ∧
    (s3ip_sysfs_cpld_drivers_register H F drv s).isSome = true ∧
    (s3ip_sysfs_cpld_drivers_unregister s).isSome = true :=
  ⟨single_create_isSome_iff F p index u, single_remove_isSome_iff index u,
    register_isSome H F drv s, unregister_isSome H s hs⟩

/-! ## Order of creation and removal -/

theorem create_trace_eq (p : kobject) (m : Nat) :
    create_trace p m = (List.range' 1 m).flatMap (child_create_events p) := by
  induction m with
  | zero => rfl
  | succ m ih =>
    rw [create_trace, ih, List.range'_1_concat, List.flatMap_append]
    simp [child_create_events, Nat.add_comm]

theorem remove_trace_eq (p : kobject) (m : Nat) :
    remove_trace p m = (List.range' 1 m).reverse.flatMap (child_remove_events p) := by
  induction m with
  | zero => rfl
  | succ m ih =>
    rw [remove_trace, ih, List.range'_1_concat, List.reverse_append]
    simp [child_remove_events, Nat.add_comm]

theorem register_order_of_count (H : switch_h) (F : Faults) (d : s3ip_sysfs_cpld_drivers_s)
    (f : Unit → Int) (s : State) (hs : s.g_cpld_drv = none)
    (hd : d.get_main_board_cpld_number = some f) (hn : 0 < f ()) :
    ∃ r s1 t, s3ip_sysfs_cpld_drivers_register H F (some d) s = some (r, s1) ∧
      s1.trace = s.trace ++ t ∧ register_order F (f ()).toNat r t := by
  by_cases hr : F.root_kobject_ok = true
  · by_cases hg : F.root_group_ret = 0
    · by_cases ha : F.kzalloc_ok = true
      · by_cases hall : ∀ k, 1 ≤ k → k ≤ (f ()).toNat →
            F.sub_kobject_ok k = true ∧ F.sub_group_ret k = 0
        · refine ⟨0, _, _, register_ok_eq H F d f s hs hd hn hr hg ha hall, ?_,
            Or.inl ⟨rfl, rfl⟩⟩
          simp [registered, create_trace_eq]
        · obtain ⟨m, hm, hok, hf⟩ := exists_first_failure F _ hall
          refine ⟨-EBADRQC, _, _,
            register_child_fail_eq H F d f s m hs hd hn hr hg ha hm hok hf, rfl,
            Or.inr (Or.inr (Or.inr (Or.inr ⟨by decide, m + 1, by omega, by omega, ?_⟩)))⟩
          simp [create_trace_eq, remove_trace_eq]
      · have ha1 : F.kzalloc_ok = false := by simpa using ha
        exact ⟨-ENOMEM, _, _, register_kzalloc_fail_eq H F d f s hs hd hn hr hg ha1, rfl,
          Or.inr (Or.inr (Or.inr (Or.inl ⟨by decide, rfl⟩)))⟩
    · exact ⟨-EBADRQC, _, _, register_root_group_fail_eq H F d f s hs hd hn hr hg, rfl,
        Or.inr (Or.inr (Or.inl ⟨by decide, rfl⟩))⟩
  · have hr1 : F.root_kobject_ok = false := by simpa using hr
    exact ⟨-ENOMEM, _, _, register_root_kobject_fail_eq H F d f s hs hd hn hr1, rfl,
      Or.inr (Or.inl ⟨by decide, rfl⟩)⟩

/-- C14: the order of the collaborator calls. Every `Register` call either makes no
collaborator call at all (a driver is already bound, or the driver or its count function is
missing, or the count is not positive), or it creates the root first and then the children in
strictly ascending index order `1, 2, ...`; when the creation of child `k` fails, the rollback
deletes child `k` first if its node had been created, then removes children `k - 1, ..., 1` in
strictly descending order, frees the array and removes the root last. Every `Unregister` call
in a reachable state with a bound driver removes children `cpld_number, ..., 1` in strictly
descending order and the root last. -/
theorem C14_creation_and_removal_order (H : switch_h) (F : Faults)
    (drv : Option s3ip_sysfs_cpld_drivers_s) (s u : State) (hu : Reachable H u) :
    (∃ r s1 t, s3ip_sysfs_cpld_drivers_register H F drv s = some (r, s1) ∧
      s1.trace = s.trace ++ t ∧
      (t = [] ∨ t = [Event.get_main_board_cpld_number] ∨
        ∃ n, 0 < n ∧ register_order F n r t)) ∧
    (∃ u1, s3ip_sysfs_cpld_drivers_unregister u = some u1 ∧ unregister_order u u1) := by
  constructor
  · cases hs : s.g_cpld_drv with
    | some d0 =>
      exact ⟨-EPERM, s, [], register_bound_eq H F drv s d0 hs, (List.append_nil _).symm,
        Or.inl rfl⟩
    | none =>
      cases drv with
      | none =>
        exact ⟨H.check_p_err, s, [], by simp [s3ip_sysfs_cpld_drivers_register, hs],
          (List.append_nil _).symm, Or.inl rfl⟩
      | some d =>
        cases hd : d.get_main_board_cpld_number with
        | none =>
          exact ⟨H.check_p_err, s, [], by simp [s3ip_sysfs_cpld_drivers_register, hs, hd],
            (List.append_nil _).symm, Or.inl rfl⟩
        | some f =>
          by_cases hn : f () ≤ 0
          · exact ⟨-EINVAL, _, _, register_no_devices_eq H F d f s hs hd hn, rfl,
              Or.inr (Or.inl rfl)⟩
          · obtain ⟨r, s1, t, e, ht, ho⟩ :=
              register_order_of_count H F d f s hs hd (by omega)
            exact ⟨r, s1, t, e, ht, Or.inr (Or.inr ⟨(f ()).toNat, by omega, ho⟩)⟩
  · rcases reachable_inv H u hu with hi | ⟨d1, n, _, hd1, ho, hg, hnodes, _⟩
    · exact ⟨u, unregister_unbound_eq u hi.1, Or.inl ⟨hi.1, rfl⟩⟩
    · refine ⟨_, unregister_bound_eq u d1 n [] hd1 ho hg hnodes, Or.inr ⟨?_, ?_⟩⟩
      · rw [hd1]; exact Option.some_ne_none d1
      · rw [hg]
        simp [remove_trace_eq]

/-- Witness of C14: a `Register` of three devices in which the attribute group of child 2
fails, and an `Unregister` of a registered two-device tree. -/
theorem C14_creation_and_removal_order_witness :
    Reachable H0 (registered (drv_count 2) 2 State.init) ∧
    (∃ r s1 t, s3ip_sysfs_cpld_drivers_register H0 (Faults.group_fails_at 2)
        (some (drv_count 3)) State.init = some (r, s1) ∧
      s1.trace = State.init.trace ++ t ∧
      (t = [] ∨ t = [Event.get_main_board_cpld_number] ∨
        ∃ n, 0 < n ∧ register_order (Faults.group_fails_at 2) n r t)) ∧
    (∃ u1, s3ip_sysfs_cpld_drivers_unregister (registered (drv_count 2) 2 State.init)
        = some u1 ∧ unregister_order (registered (drv_count 2) 2 State.init) u1) :=
  ⟨Reachable.step (Op.register Faults.all_ok (some (drv_count 2))) State.init _
      Reachable.init (by rfl),
    C14_creation_and_removal_order H0 (Faults.group_fails_at 2) (some (drv_count 3))
      State.init (registered (drv_count 2) 2 State.init)
      (Reachable.step (Op.register Faults.all_ok (some (drv_count 2))) State.init _
        Reachable.init (by rfl))⟩

/-- Witness of C19: `Register` and `Unregister` on a registered two-device tree, and the
accesses to slot 1 and to the missing slot 3 of its child array. -/
theorem C19_child_index_in_bounds_witness :
    Reachable H0 (registered (drv_count 2) 2 State.init) ∧
    (cpld_sub_single_remove_kobj_and_attrs 1 (registered (drv_count 2) 2 State.init)).isSome
      = true ∧
    (cpld_sub_single_remove_kobj_and_attrs 3 (registered (drv_count 2) 2 State.init)).isSome
      = false ∧
    (s3ip_sysfs_cpld_drivers_register H0 Faults.all_ok (some (drv_count 5))
      (registered (drv_count 2) 2 State.init)).isSome = true ∧
    (s3ip_sysfs_cpld_drivers_unregister (registered (drv_count 2) 2 State.init)).isSome
      = true :=
  ⟨Reachable.step (Op.register Faults.all_ok (some (drv_count 2))) State.init _
      Reachable.init (by rfl),
    by rfl, by rfl,
    (C19_child_index_in_bounds H0 Faults.all_ok (some (drv_count 5)) root_kobj 1
      (registered (drv_count 2) 2 State.init) (registered (drv_count 2) 2 State.init)
      (Reachable.step (Op.register Faults.all_ok (some (drv_count 2))) State.init _
        Reachable.init (by rfl))).2.2⟩

/-! ## Overlap of the table names -/

theorem table_names_incomparable :
    ∀ e ∈ reboot_cause_file_info_match, ∀ e1 ∈ reboot_cause_file_info_match,
      e.reboot_cause_name.data.isPrefixOf e1.reboot_cause_name.data = true → e = e1 := by
  decide

theorem table_names_no_comma :
    ∀ e ∈ reboot_cause_file_info_match, ∀ c ∈ e.reboot_cause_name.data, c ≠ ',' := by
  decide

theorem table_match_unique (text : List Char) (e e1 : reboot_cause_file_info_s)
    (he : e ∈ reboot_cause_file_info_match) (he1 : e1 ∈ reboot_cause_file_info_match)
    (h : e.reboot_cause_name.data.isPrefixOf text = true)
    (h1 : e1.reboot_cause_name.data.isPrefixOf text = true) : e = e1 := by
  rw [List.isPrefixOf_iff_prefix] at h h1
  rcases List.prefix_or_prefix_of_prefix h h1 with hp | hp
  · exact table_names_incomparable e he e1 he1 (List.isPrefixOf_iff_prefix.2 hp)
  · exact (table_names_incomparable e1 he1 e he (List.isPrefixOf_iff_prefix.2 hp)).symm

theorem find_of_unique (p : reboot_cause_file_info_s → Bool)
    (l : List reboot_cause_file_info_s) (e : reboot_cause_file_info_s) (he : e ∈ l)
    (hp : p e = true) (huniq : ∀ e1 ∈ l, p e1 = true → e1 = e) : l.find? p = some e := by
  induction l with
  | nil => cases he
  | cons x xs ih =>
    by_cases hx : p x = true
    · have e1 := huniq x (List.mem_cons_self x xs) hx
      subst e1
      simp [List.find?_cons, hx]
    · have hx1 : p x = false := Bool.eq_false_iff.2 hx
      have hmem : e ∈ xs := by
        rcases List.mem_cons.1 he with h | h
        · subst h; rw [hp] at hx1; cases hx1
        · exact h
      simp only [List.find?_cons, hx1]
      exact ih hmem (fun e1 h1 => huniq e1 (List.mem_cons_of_mem x h1))

theorem find_of_none (p : reboot_cause_file_info_s → Bool)
    (l : List reboot_cause_file_info_s) (h : ∀ e ∈ l, p e = false) : l.find? p = none := by
  induction l with
  | nil => rfl
  | cons x xs ih =>
    simp only [List.find?_cons, h x (List.mem_cons_self x xs)]
    exact ih (fun e he => h e (List.mem_cons_of_mem x he))

theorem find_perm (p : reboot_cause_file_info_s → Bool)
    (l l1 : List reboot_cause_file_info_s) (hperm : l1.Perm l)
    (huniq : ∀ e ∈ l, ∀ e1 ∈ l, p e = true → p e1 = true → e = e1) :
    l1.find? p = l.find? p := by
  by_cases hex : ∃ e ∈ l, p e = true
  · obtain ⟨e, he, hp⟩ := hex
    rw [find_of_unique p l e he hp (fun e1 h1 hp1 => huniq e1 h1 e he hp1 hp),
      find_of_unique p l1 e (hperm.mem_iff.2 he) hp
        (fun e1 h1 hp1 => huniq e1 (hperm.mem_iff.1 h1) e he hp1 hp)]
  · have hnone : ∀ e ∈ l, p e = false := fun e he =>
      Bool.eq_false_iff.2 (fun hp => hex ⟨e, he, hp⟩)
    rw [find_of_none p l hnone,
      find_of_none p l1 (fun e he => hnone e (hperm.mem_iff.1 he))]

theorem entry_match_iff (buf : List Char) (e : reboot_cause_file_info_s)
    (he : e ∈ reboot_cause_file_info_match) :
    strncmp e.reboot_cause_name.data buf (strlen e.reboot_cause_name.data) = 0 ↔
      e.reboot_cause_name.data.isPrefixOf (buf.takeWhile (fun c => c != NUL)) = true := by
  rw [strlen_eq_length _ (table_names_no_nul e he)]
  exact strncmp_eq_zero_iff _ (table_names_no_nul e he) buf

/-- C15 (amended): the order of the static reboot-cause table does not matter. No buffer
content is matched by two different entries of `reboot_cause_file_info_match`, so the
first-match rule never has to choose between entries, and scanning any permutation of the table
gives the same code as scanning the table itself, for every buffer. -/
theorem C15_table_order_irrelevant (buf : List Char) (table : List reboot_cause_file_info_s)
    (hperm : table.Perm reboot_cause_file_info_match) :
    (∀ e ∈ reboot_cause_file_info_match, ∀ e1 ∈ reboot_cause_file_info_match,
      strncmp e.reboot_cause_name.data buf (strlen e.reboot_cause_name.data) = 0 →
      strncmp e1.reboot_cause_name.data buf (strlen e1.reboot_cause_name.data) = 0 →
      e = e1) ∧
    reboot_cause_scan buf table = reboot_cause_scan buf reboot_cause_file_info_match := by
  constructor
  · intro e he e1 he1 h h1
    exact table_match_unique _ e e1 he he1 ((entry_match_iff buf e he).1 h)
      ((entry_match_iff buf e1 he1).1 h1)
  · rw [scan_eq_find buf table (fun e he => table_names_no_nul e (hperm.mem_iff.1 he)),
      scan_eq_find buf _ table_names_no_nul,
      find_perm _ _ table hperm
        (fun e he e1 he1 h h1 => table_match_unique _ e e1 he he1 h h1)]

/-- Witness of C15: the reversed table on a buffer holding `BMC reboot,x`. -/
theorem C15_table_order_irrelevant_witness :
    reboot_cause_file_info_match.reverse.Perm reboot_cause_file_info_match ∧
    reboot_cause_scan "BMC reboot,x".data reboot_cause_file_info_match.reverse
      = reboot_cause_scan "BMC reboot,x".data reboot_cause_file_info_match :=
  ⟨List.reverse_perm _,
    (C15_table_order_irrelevant "BMC reboot,x".data reboot_cause_file_info_match.reverse
      (List.reverse_perm _)).2⟩

/-- Counterexample to C15 as stated: there is no buffer content that two different entries of
the table both match, and there is no buffer content and no permutation of the table for which
the scan returns another code than for the table itself. -/
theorem C15_no_overlap_counterexample :
    (¬ ∃ (buf : List Char) (e e1 : reboot_cause_file_info_s),
      e ∈ reboot_cause_file_info_match ∧ e1 ∈ reboot_cause_file_info_match ∧ e ≠ e1 ∧
      strncmp e.reboot_cause_name.data buf (strlen e.reboot_cause_name.data) = 0 ∧
      strncmp e1.reboot_cause_name.data buf (strlen e1.reboot_cause_name.data) = 0) ∧
    (¬ ∃ (buf : List Char) (table : List reboot_cause_file_info_s),
      table.Perm reboot_cause_file_info_match ∧
      reboot_cause_scan buf table ≠ reboot_cause_scan buf reboot_cause_file_info_match) := by
  constructor
  · rintro ⟨buf, e, e1, he, he1, hne, h, h1⟩
    exact hne (table_match_unique _ e e1 he he1 ((entry_match_iff buf e he).1 h)
      ((entry_match_iff buf e1 he1).1 h1))
  · rintro ⟨buf, table, hperm, hne⟩
    apply hne
    rw [scan_eq_find buf table (fun e he => table_names_no_nul e (hperm.mem_iff.1 he)),
      scan_eq_find buf _ table_names_no_nul,
      find_perm _ _ table hperm
        (fun e he e1 he1 h h1 => table_match_unique _ e e1 he he1 h h1)]

/-! ## Codes of particular reasons -/

theorem reason_text_starts_with (name content : List Char) (hc : ∀ c ∈ name, c ≠ ',')
    (hn : ∀ c ∈ name, c ≠ NUL) (h : name <+: content) : name <+: reason_text content := by
  obtain ⟨rest, rfl⟩ := h
  have hall : ∀ c ∈ name, (c != ',' && c != NUL) = true := by
    intro c hmem
    simp [hc c hmem, hn c hmem]
  simp only [reason_text]
  rw [List.takeWhile_append_of_pos hall]
  exact List.prefix_append _ _

theorem classify_of_starts_with (e : reboot_cause_file_info_s) (data : List Char)
    (he : e ∈ reboot_cause_file_info_match) (h : e.reboot_cause_name.data <+: data) :
    (reboot_cause_value (file_state.content data)).1 = e.reboot_cause_type := by
  have hp : e.reboot_cause_name.data.isPrefixOf (reason_text data) = true :=
    List.isPrefixOf_iff_prefix.2
      (reason_text_starts_with _ _ (table_names_no_comma e he) (table_names_no_nul e he) h)
  rw [reboot_cause_value_content, classify_spec_take]
  simp only [classify_spec]
  rw [find_of_unique _ _ e he hp
    (fun e1 h1 hp1 => table_match_unique _ e1 e h1 he hp1 hp)]

/-- C16: two different reason names map to the same code. For every file content that starts
with `Watchdog reboot` and every file content that starts with `Thermal Overload: ASIC`, the
value `cpld_reboot_cause_show` prints is `REBOOT_CAUSE_THERMAL_OVERLOAD_ASIC` (3) in both
cases; in particular a `Watchdog reboot` line is not classified as `REBOOT_CAUSE_WATCHDOG`
(6). -/
theorem C16_watchdog_maps_to_thermal_asic (H : switch_h) (s : State) (d1 d2 : List Char)
    (h1 : "Watchdog reboot".data <+: d1) (h2 : "Thermal Overload: ASIC".data <+: d2) :
    (reboot_cause_value (file_state.content d1)).1 = REBOOT_CAUSE_THERMAL_OVERLOAD_ASIC ∧
    (reboot_cause_value (file_state.content d2)).1 = REBOOT_CAUSE_THERMAL_OVERLOAD_ASIC ∧
    (reboot_cause_value (file_state.content d1)).1 ≠ REBOOT_CAUSE_WATCHDOG ∧
    REBOOT_CAUSE_THERMAL_OVERLOAD_ASIC = 3 ∧
    (cpld_reboot_cause_show H (file_state.content d1) s).1
      = (cpld_reboot_cause_show H (file_state.content d2) s).1 := by
  have e1 := classify_of_starts_with
    { reboot_cause_type := REBOOT_CAUSE_THERMAL_OVERLOAD_ASIC,
      reboot_cause_name := "Watchdog reboot" } d1 (by decide) h1
  have e2 := classify_of_starts_with
    { reboot_cause_type := REBOOT_CAUSE_THERMAL_OVERLOAD_ASIC,
      reboot_cause_name := "Thermal Overload: ASIC" } d2 (by decide) h2
  simp only at e1 e2
  refine ⟨e1, e2, ?_, rfl, ?_⟩
  · rw [e1]; decide
  · simp only [cpld_reboot_cause_show, e1, e2]

/-- Witness of C16: the contents `Watchdog reboot,2024-01-01` and `Thermal Overload: ASIC`. -/
theorem C16_watchdog_maps_to_thermal_asic_witness :
    "Watchdog reboot".data <+: "Watchdog reboot,2024-01-01".data ∧
    "Thermal Overload: ASIC".data <+: "Thermal Overload: ASIC".data ∧
    (reboot_cause_value (file_state.content "Watchdog reboot,2024-01-01".data)).1
      = REBOOT_CAUSE_THERMAL_OVERLOAD_ASIC ∧
    (reboot_cause_value (file_state.content "Thermal Overload: ASIC".data)).1
      = REBOOT_CAUSE_THERMAL_OVERLOAD_ASIC ∧
    (reboot_cause_value (file_state.content "Watchdog reboot,2024-01-01".data)).1
      ≠ REBOOT_CAUSE_WATCHDOG ∧
    REBOOT_CAUSE_THERMAL_OVERLOAD_ASIC = 3 ∧
    (cpld_reboot_cause_show H0 (file_state.content "Watchdog reboot,2024-01-01".data)
        State.init).1
      = (cpld_reboot_cause_show H0 (file_state.content "Thermal Overload: ASIC".data)
        State.init).1 :=
  ⟨List.isPrefixOf_iff_prefix.1 (by decide), List.prefix_refl _,
    C16_watchdog_maps_to_thermal_asic H0 State.init "Watchdog reboot,2024-01-01".data
      "Thermal Overload: ASIC".data (List.isPrefixOf_iff_prefix.1 (by decide))
      (List.prefix_refl _)⟩

/-! ## The comma truncation -/

theorem takeWhile_and (p q : Char → Bool) (l : List Char) :
    l.takeWhile (fun c => p c && q c) = (l.takeWhile q).takeWhile p := by
  induction l with
  | nil => rfl
  | cons x xs ih =>
    by_cases hq : q x = true
    · by_cases hp : p x = true
      · simp [List.takeWhile_cons, hp, hq, ih]
      · simp [List.takeWhile_cons, hp, hq]
    · simp [List.takeWhile_cons, hq]

theorem prefix_takeWhile_iff (name text : List Char) (p : Char → Bool)
    (h : ∀ c ∈ name, p c = true) : name <+: text.takeWhile p ↔ name <+: text := by
  constructor
  · intro hp
    exact hp.trans (List.takeWhile_prefix p)
  · rintro ⟨rest, rfl⟩
    rw [List.takeWhile_append_of_pos h]
    exact List.prefix_append _ _

theorem find_congr (p q : reboot_cause_file_info_s → Bool)
    (l : List reboot_cause_file_info_s) (h : ∀ e ∈ l, p e = q e) : l.find? p = l.find? q := by
  induction l with
  | nil => rfl
  | cons x xs ih =>
    simp only [List.find?_cons, h x (List.mem_cons_self x xs),
      ih (fun e he => h e (List.mem_cons_of_mem x he))]

/-- C18: the comma truncation never changes the result. For every buffer content, the table
scan on the buffer with its first comma overwritten by NUL (the `strchr` step of
`cpld_reboot_cause_show`) returns the same code as the table scan on the untouched buffer,
no name in `reboot_cause_file_info_match` containing a comma. -/
theorem C18_comma_truncation_irrelevant (buf : List Char) :
    reboot_cause_scan
        (match strchr ',' buf with
          | some point => buf.set point NUL
          | none => buf)
        reboot_cause_file_info_match
      = reboot_cause_scan buf reboot_cause_file_info_match ∧
    ∀ e ∈ reboot_cause_file_info_match, ∀ c ∈ e.reboot_cause_name.data, c ≠ ',' := by
  refine ⟨?_, table_names_no_comma⟩
  rw [scan_eq_find _ _ table_names_no_nul, scan_eq_find _ _ table_names_no_nul, cut_at_comma]
  have hfind : reboot_cause_file_info_match.find?
        (fun e => e.reboot_cause_name.data.isPrefixOf (reason_text buf))
      = reboot_cause_file_info_match.find?
        (fun e => e.reboot_cause_name.data.isPrefixOf
          (buf.takeWhile (fun c => c != NUL))) := by
    apply find_congr
    intro e he
    have hall : ∀ c ∈ e.reboot_cause_name.data, (c != ',') = true := by
      intro c hc
      simpa using table_names_no_comma e he c hc
    simp only [reason_text]
    rw [takeWhile_and (fun c => c != ',') (fun c => c != NUL) buf, Bool.eq_iff_iff,
      List.isPrefixOf_iff_prefix, List.isPrefixOf_iff_prefix]
    exact prefix_takeWhile_iff _ _ _ hall
  rw [hfind]

/-! ## Hexadecimal input of the test register -/

theorem hex_digit_lt (c : Char) (v : Nat) (h : hex_digit c = some v) : v < 16 := by
  unfold hex_digit at h
  have ha : 'a'.toNat = 97 := rfl
  have hf : 'f'.toNat = 102 := rfl
  have hA : 'A'.toNat = 65 := rfl
  have hF : 'F'.toNat = 70 := rfl
  have h0 : '0'.toNat = 48 := rfl
  have h9 : '9'.toNat = 57 := rfl
  split at h
  · rename_i hc
    have h2 : c.toNat ≤ '9'.toNat := hc.2
    cases h
    omega
  · split at h
    · rename_i hc
      have h1 : 'a'.toNat ≤ c.toNat := hc.1
      have h2 : c.toNat ≤ 'f'.toNat := hc.2
      cases h
      omega
    · split at h
      · rename_i hc
        have h1 : 'A'.toNat ≤ c.toNat := hc.1
        have h2 : c.toNat ≤ 'F'.toNat := hc.2
        cases h
        omega
      · cases h

theorem hex_run_eq (digits : List Char) (hhex : ∀ c ∈ digits, (hex_digit c).isSome = true) :
    ∀ acc, hex_run acc digits = acc * 16 ^ digits.length +
      Nat.ofDigits 16 ((digits.map (fun c => (hex_digit c).getD 0)).reverse) := by
  induction digits with
  | nil => intro acc; simp [hex_run]
  | cons c cs ih =>
    intro acc
    obtain ⟨v, hv⟩ := Option.isSome_iff_exists.1 (hhex c (List.mem_cons_self c cs))
    have ih1 := ih (fun x hx => hhex x (List.mem_cons_of_mem c hx)) (acc * 16 + v)
    simp only [hex_run, hv, ih1, List.map_cons, List.reverse_cons, Nat.ofDigits_append,
      List.length_reverse, List.length_map, Option.getD_some, List.length_cons,
      Nat.ofDigits_singleton]
    ring

theorem hex_value_lt (digits : List Char) (hhex : ∀ c ∈ digits, (hex_digit c).isSome = true)
    (h8 : digits.length ≤ 8) :
    Nat.ofDigits 16 ((digits.map (fun c => (hex_digit c).getD 0)).reverse) < 2 ^ 32 := by
  have hlt : Nat.ofDigits 16 ((digits.map (fun c => (hex_digit c).getD 0)).reverse)
      < 16 ^ ((digits.map (fun c => (hex_digit c).getD 0)).reverse).length := by
    apply Nat.ofDigits_lt_base_pow_length (by decide)
    intro x hx
    simp only [List.mem_reverse, List.mem_map] at hx
    obtain ⟨c, hc, rfl⟩ := hx
    obtain ⟨v, hv⟩ := Option.isSome_iff_exists.1 (hhex c hc)
    rw [hv]
    exact hex_digit_lt c v hv
  simp only [List.length_reverse, List.length_map] at hlt
  calc Nat.ofDigits 16 ((digits.map (fun c => (hex_digit c).getD 0)).reverse)
      < 16 ^ digits.length := hlt
    _ ≤ 16 ^ 8 := Nat.pow_le_pow_right (by decide) h8
    _ = 2 ^ 32 := by norm_num

theorem sscanf_hex_literal (digits : List Char) (h1 : 1 ≤ digits.length)
    (h8 : digits.length ≤ 8) (hhex : ∀ c ∈ digits, (hex_digit c).isSome = true) :
    sscanf_0x_x ('0' :: 'x' :: digits)
      = some (Nat.ofDigits 16 ((digits.map (fun c => (hex_digit c).getD 0)).reverse)) := by
  cases digits with
  | nil => simp at h1
  | cons c cs =>
    obtain ⟨v, hv⟩ := Option.isSome_iff_exists.1 (hhex c (List.mem_cons_self c cs))
    have hrun := hex_run_eq (c :: cs) hhex 0
    simp only [hex_run, hv, Nat.zero_mul, Nat.zero_add] at hrun
    simp only [sscanf_0x_x, hv, hrun]
    rw [Nat.mod_eq_of_lt (hex_value_lt (c :: cs) hhex h8)]

/-- C17: the test-register write path parses its input as a hexadecimal literal. For every
input consisting of `0x` followed by one to eight hexadecimal digits (either case), with a
driver bound that has `set_main_board_cpld_test_reg`, `cpld_test_reg_store` calls the setter
exactly once, with the node's index and the value the digits denote in base 16, which is below
`2 ^ 32`; the indeterminate initial content of `value` plays no part. -/
theorem C17_test_reg_store_parses_hex (H : switch_h) (obj : switch_obj)
    (digits : List Char) (count value0 : Nat) (s : State) (d : s3ip_sysfs_cpld_drivers_s)
    (set : Nat → Nat → Int) (hd : s.g_cpld_drv = some d)
    (hset : d.set_main_board_cpld_test_reg = some set) (h1 : 1 ≤ digits.length)
    (h8 : digits.length ≤ 8) (hhex : ∀ c ∈ digits, (hex_digit c).isSome = true) :
    (cpld_test_reg_store H obj (String.mk ('0' :: 'x' :: digits)) count value0 s).2.trace
      = s.trace ++ [Event.set_main_board_cpld_test_reg obj.index
          (Nat.ofDigits 16 ((digits.map (fun c => (hex_digit c).getD 0)).reverse))] ∧
    Nat.ofDigits 16 ((digits.map (fun c => (hex_digit c).getD 0)).reverse) < 2 ^ 32 := by
  refine ⟨?_, hex_value_lt digits hhex h8⟩
  simp only [cpld_test_reg_store, hd, hset, sscanf_hex_literal digits h1 h8 hhex,
    Option.getD_some]
  split <;> rfl

/-- Witness of C17: writing `0x2a` to child 1 of a registered tree calls the setter with
`(1, 42)`. -/
theorem C17_test_reg_store_parses_hex_witness :
    (registered drv_full 2 State.init).g_cpld_drv = some drv_full ∧
    drv_full.set_main_board_cpld_test_reg = some (fun _ _ => 0) ∧
    (1 ≤ ['2', 'a'].length ∧ ['2', 'a'].length ≤ 8) ∧
    (∀ c ∈ ['2', 'a'], (hex_digit c).isSome = true) ∧
    Nat.ofDigits 16 ((['2', 'a'].map (fun c => (hex_digit c).getD 0)).reverse) = 42 ∧
    (cpld_test_reg_store H0 (child_obj root_kobj 1) (String.mk ('0' :: 'x' :: ['2', 'a'])) 4 7
        (registered drv_full 2 State.init)).2.trace
      = (registered drv_full 2 State.init).trace ++
        [Event.set_main_board_cpld_test_reg (child_obj root_kobj 1).index
          (Nat.ofDigits 16 ((['2', 'a'].map (fun c => (hex_digit c).getD 0)).reverse))] :=
  ⟨rfl, rfl, ⟨by decide, by decide⟩, by decide, by decide,
    (C17_test_reg_store_parses_hex H0 (child_obj root_kobj 1) ['2', 'a'] 4 7
      (registered drv_full 2 State.init) drv_full (fun _ _ => 0) rfl rfl (by decide)
      (by decide) (by decide)).1⟩

end CpldSysfs
